import Mathlib

/-!
Verification development for the e-commerce back-office backend.

The definitions below are shallow embeddings of the Python source under
`backend/`: the permission evaluator and user-management endpoints of
`routers/auth.py`, the stock-ledger endpoint of `routers/inventory.py`, and
the order state machine of `routers/orders.py`.  Database rows are modelled
as Lean structures, the database as lists of rows, JSON dictionaries as
association lists, and fallible endpoints as `Except`-valued functions whose
`error` result models the HTTP exception raised inside the transaction (the
transaction rolls back, so an `error` carries no state change).  Python
machine integers are unbounded, so `Int` is used directly.  Monetary values
(Python floats) play no role in any property proved here and are modelled as
`Int`.  Fields that are pure response shaping (customer name, addresses,
SKUs, images, timestamps of rows) are omitted where no property depends on
them.
-/

namespace ECom

/-- User roles, from `models/auth_models.py` (`UserRole`) and the Prisma enum. -/
inductive Role where
  | ADMIN
  | STAFF
  | CUSTOMER
  deriving DecidableEq, Repr

/-- `get_role_string` of `routers/auth.py`: the stored role rendered as the
string the guards compare against. -/
def get_role_string : Role → String
  | .ADMIN => "ADMIN"
  | .STAFF => "STAFF"
  | .CUSTOMER => "CUSTOMER"

/-- A JSON permissions dictionary (module name → level string), modelled as an
association list; lookup takes the first matching key, as a dict has unique keys. -/
abbrev PermMap := List (String × String)

/-- Python `d.get(k, default)` on a permissions dictionary. -/
def dictGet (m : PermMap) (k : String) (dflt : String) : String :=
  match m.find? (fun p => p.1 == k) with
  | some p => p.2
  | none => dflt

/-- `k in d` for a permissions dictionary. -/
def dictHasKey (m : PermMap) (k : String) : Bool :=
  (m.find? (fun p => p.1 == k)).isSome

/-- `PERMISSION_MODULES` of `models/auth_models.py`. -/
def PERMISSION_MODULES : List String :=
  ["products", "orders", "inventory", "categories", "attributes", "analytics", "users"]

/-- `DEFAULT_STAFF_PERMISSIONS` of `models/auth_models.py`. -/
def DEFAULT_STAFF_PERMISSIONS : PermMap :=
  [("products", "view"), ("orders", "view"), ("inventory", "view"),
   ("categories", "view"), ("attributes", "view"), ("analytics", "view"),
   ("users", "none")]

/-- A row of the `User` table (the fields the authorization core reads). -/
structure User where
  id : String
  email : String
  role : Role
  isApproved : Bool
  emailVerified : Bool
  permissions : Option PermMap
  deriving DecidableEq, Repr

/-- The distinct 403 details raised by the guards of `routers/auth.py`;
each constructor stands for one literal detail string of the source. -/
inductive DenyReason where
  /-- "User not found" -/
  | userNotFound
  /-- "Access denied. Admin or staff access required." -/
  | adminOrStaffRequired
  /-- "Your account is pending approval" -/
  | pendingApproval
  /-- "You don't have access to \x7bmodule\x7d" -/
  | noAccess (module : String)
  /-- "You have read-only access to \x7bmodule\x7d. Edit permission required." -/
  | readOnlyEditRequired (module : String)
  /-- "Access denied" (unreachable fallback of `check_permission`) -/
  | accessDenied
  /-- "Staff or admin access required" (`get_current_staff`) -/
  | staffOrAdminRequired
  deriving DecidableEq, Repr

/-- Result of a guard: the handler receives the db user, or a 403 with a detail. -/
inductive AuthResult where
  | allow (user : User)
  | deny (reason : DenyReason)
  deriving DecidableEq, Repr

/-- `permission_hierarchy.get(s, dflt)` with
`permission_hierarchy = \x7b"none": 0, "view": 1, "edit": 2\x7d`. -/
def permission_hierarchy_get (s : String) (dflt : Nat) : Nat :=
  if s == "none" then 0
  else if s == "view" then 1
  else if s == "edit" then 2
  else dflt

/-- Python `db_user.permissions or DEFAULT_STAFF_PERMISSIONS`: both a missing
(`None`) and an empty (`\x7b\x7d`, falsy) dictionary fall back to the default. -/
def py_or_dict (pm : Option PermMap) (dflt : PermMap) : PermMap :=
  match pm with
  | none => dflt
  | some m => if m.isEmpty then dflt else m

/-- `check_permission(module, required_level)` of `routers/auth.py` (lines
165-248), applied to the looked-up db user (`none` models a missing row). -/
def check_permission (module required_level : String) (db_user : Option User) : AuthResult :=
  match db_user with
  | none => .deny .userNotFound
  | some db_user =>
    let role_str := get_role_string db_user.role
    if role_str = "ADMIN" then .allow db_user
    else if role_str = "CUSTOMER" then .deny .adminOrStaffRequired
    else if role_str = "STAFF" then
      if db_user.isApproved = false then .deny .pendingApproval
      else
        let permissions := py_or_dict db_user.permissions DEFAULT_STAFF_PERMISSIONS
        let user_permission := dictGet permissions module "none"
        let user_level := permission_hierarchy_get user_permission 0
        let required := permission_hierarchy_get required_level 1
        if user_level < required then
          if user_level = 0 then .deny (.noAccess module)
          else .deny (.readOnlyEditRequired module)
        else .allow db_user
    else .deny .accessDenied

/-- `get_current_staff` of `routers/auth.py` (lines 128-162). -/
def get_current_staff (db_user : Option User) : AuthResult :=
  match db_user with
  | none => .deny .userNotFound
  | some db_user =>
    let role_str := get_role_string db_user.role
    if role_str = "ADMIN" then .allow db_user
    else if role_str = "STAFF" ∧ db_user.isApproved = true then .allow db_user
    else .deny .staffOrAdminRequired

/-- C6: an ADMIN account passes `check_permission` for any module and level,
whatever its permissions map (absent, empty, or arbitrary) and with no
further checks. -/
theorem admin_bypass_allow (module required_level : String) (u : User)
    (h : u.role = .ADMIN) :
    check_permission module required_level (some u) = .allow u := by
  simp [check_permission, get_role_string, h]

/-- Witness for `admin_bypass_allow` at a concrete unapproved admin with a
malformed permissions map. -/
theorem admin_bypass_allow_witness :
    check_permission "orders" "edit"
      (some { id := "a1", email := "a@x", role := .ADMIN, isApproved := false,
              emailVerified := false, permissions := some [("garbage", "zzz")] })
      = .allow { id := "a1", email := "a@x", role := .ADMIN, isApproved := false,
                 emailVerified := false, permissions := some [("garbage", "zzz")] } :=
  admin_bypass_allow "orders" "edit" _ rfl

/-- C10: both `check_permission` (for any module/level) and `get_current_staff`
allow an ADMIN account even when `isApproved` is false: the pending-approval
denial is only reachable for STAFF accounts. -/
theorem admin_ignores_approval_flag (module required_level : String) (u : User)
    (hrole : u.role = .ADMIN) (hunapproved : u.isApproved = false) :
    check_permission module required_level (some u) = .allow u ∧
      get_current_staff (some u) = .allow u := by
  constructor
  · simp [check_permission, get_role_string, hrole]
  · simp [get_current_staff, get_role_string, hrole]

/-- Witness for `admin_ignores_approval_flag` at a concrete unapproved admin. -/
theorem admin_ignores_approval_flag_witness :
    check_permission "users" "edit"
      (some { id := "a2", email := "b@x", role := .ADMIN, isApproved := false,
              emailVerified := false, permissions := none })
      = .allow { id := "a2", email := "b@x", role := .ADMIN, isApproved := false,
                 emailVerified := false, permissions := none } ∧
    get_current_staff
      (some { id := "a2", email := "b@x", role := .ADMIN, isApproved := false,
              emailVerified := false, permissions := none })
      = .allow { id := "a2", email := "b@x", role := .ADMIN, isApproved := false,
                 emailVerified := false, permissions := none } :=
  admin_ignores_approval_flag "users" "edit" _ rfl rfl

/-- C7 counterexample: an approved STAFF account whose permissions map is
absent (NULL) is nevertheless allowed "products" at level "view": Python
`db_user.permissions or DEFAULT_STAFF_PERMISSIONS` substitutes the default
matrix (view on products), so an absent module key is not treated as NONE
for such an account, contradicting the claim as stated. -/
theorem staff_default_matrix_counterexample :
    check_permission "products" "view"
      (some { id := "s1", email := "s@x", role := .STAFF, isApproved := true,
              emailVerified := false, permissions := none })
      = .allow { id := "s1", email := "s@x", role := .STAFF, isApproved := true,
                 emailVerified := false, permissions := none } ∧
    check_permission "products" "view"
      (some { id := "s2", email := "t@x", role := .STAFF, isApproved := true,
              emailVerified := false, permissions := some [] })
      = .allow { id := "s2", email := "t@x", role := .STAFF, isApproved := true,
                 emailVerified := false, permissions := some [] } := by
  constructor <;> rfl

/-- C7 (amended): for an approved STAFF account whose stored permissions map is
present and non-empty, a module key absent from the map is treated as level
NONE (denied with the no-access reason at both "view" and "edit"), and a
module mapped to "view" with "edit" required is denied with the read-only
reason. -/
theorem staff_missing_module_defaults (u : User) (ps : PermMap) (m m2 : String)
    (hrole : u.role = .STAFF) (happroved : u.isApproved = true)
    (hperm : u.permissions = some ps) (hne : ps.isEmpty = false)
    (habsent : dictGet ps m "none" = "none")
    (hview : dictGet ps m2 "none" = "view") :
    check_permission m "view" (some u) = .deny (.noAccess m) ∧
    check_permission m "edit" (some u) = .deny (.noAccess m) ∧
    check_permission m2 "edit" (some u) = .deny (.readOnlyEditRequired m2) := by
  refine ⟨?_, ?_, ?_⟩ <;>
    simp [check_permission, get_role_string, hrole, happroved, hperm, py_or_dict, hne,
      habsent, hview, permission_hierarchy_get]

/-- Witness for `staff_missing_module_defaults`: permissions
`\x7bproducts: view\x7d`; "orders" is absent (no access), "products" is view-only. -/
theorem staff_missing_module_defaults_witness :
    check_permission "orders" "view"
      (some { id := "s3", email := "u@x", role := .STAFF, isApproved := true,
              emailVerified := false, permissions := some [("products", "view")] })
      = .deny (.noAccess "orders") ∧
    check_permission "orders" "edit"
      (some { id := "s3", email := "u@x", role := .STAFF, isApproved := true,
              emailVerified := false, permissions := some [("products", "view")] })
      = .deny (.noAccess "orders") ∧
    check_permission "products" "edit"
      (some { id := "s3", email := "u@x", role := .STAFF, isApproved := true,
              emailVerified := false, permissions := some [("products", "view")] })
      = .deny (.readOnlyEditRequired "products") :=
  staff_missing_module_defaults _ [("products", "view")] "orders" "products"
    rfl rfl rfl (by decide) (by decide) (by decide)

/-! ## Inventory and order data model (`routers/orders.py`, `routers/inventory.py`) -/

/-- A row of the `Product` table (fields the stock ledger touches). -/
structure Product where
  id : String
  name : String
  stock : Int
  deriving DecidableEq, Repr

/-- A row of the `ProductVariant` table. -/
structure ProductVariant where
  id : String
  productId : String
  name : String
  stock : Int
  deriving DecidableEq, Repr

/-- A row of the `StockAdjustment` table. -/
structure StockAdjustment where
  productId : Option String
  variantId : Option String
  productName : Option String
  variantName : Option String
  type : String
  quantity : Int
  previousStock : Int
  newStock : Int
  orderId : Option String
  reason : Option String
  notes : Option String
  adjustedBy : Option String
  deriving DecidableEq, Repr

/-- A row of the `Order` table (fields the state machine reads or writes). -/
structure Order where
  id : String
  orderNumber : String
  status : String
  subtotal : Int
  shippingCost : Int
  taxAmount : Int
  discountAmount : Int
  total : Int
  shippedAt : Option Nat
  deliveredAt : Option Nat
  cancelledAt : Option Nat
  deriving DecidableEq, Repr

/-- A row of the `OrderItem` table. -/
structure OrderItem where
  orderId : String
  productId : Option String
  variantId : Option String
  productName : String
  unitPrice : Int
  quantity : Int
  subtotal : Int
  deriving DecidableEq, Repr

/-- A row of the `OrderStatusHistory` table. -/
structure OrderStatusHistory where
  orderId : String
  fromStatus : Option String
  toStatus : String
  note : Option String
  changedBy : String
  deriving DecidableEq, Repr

/-- The relational database state the order/inventory core operates on. -/
structure DB where
  products : List Product
  variants : List ProductVariant
  orders : List Order
  orderItems : List OrderItem
  adjustments : List StockAdjustment
  history : List OrderStatusHistory
  deriving DecidableEq, Repr

/-- `prisma.product.find_unique(where=\x7b"id": pid\x7d)`. -/
def findProduct (db : DB) (pid : String) : Option Product :=
  db.products.find? (fun p => p.id == pid)

/-- `prisma.productvariant.find_unique(where=\x7b"id": vid\x7d)`. -/
def findVariant (db : DB) (vid : String) : Option ProductVariant :=
  db.variants.find? (fun v => v.id == vid)

/-- `product.update(where=\x7b"id": pid\x7d, data=\x7b"stock": s\x7d)`. -/
def setProductStock (db : DB) (pid : String) (s : Int) : DB :=
  { db with products := db.products.map (fun p => if p.id == pid then { p with stock := s } else p) }

/-- `productvariant.update(where=\x7b"id": vid\x7d, data=\x7b"stock": s\x7d)`. -/
def setVariantStock (db : DB) (vid : String) (s : Int) : DB :=
  { db with variants := db.variants.map (fun v => if v.id == vid then { v with stock := s } else v) }

/-- `stockadjustment.create(data=...)`. -/
def appendAdjustment (db : DB) (a : StockAdjustment) : DB :=
  { db with adjustments := db.adjustments ++ [a] }

/-- The typed failures (HTTP exceptions) the modelled endpoints can raise. -/
inductive ApiError where
  /-- 400 "Either product_id or variant_id must be provided" -/
  | badRequestMissingTarget
  /-- 404 "Variant not found" -/
  | variantNotFound
  /-- 404 "Product not found" -/
  | productNotFound
  /-- 400 "Adjustment would result in negative stock (\x7bnew_stock\x7d)" -/
  | negativeStock (newStock : Int)
  /-- 404 "Order not found" -/
  | orderNotFound
  /-- 404 "User not found" -/
  | userNotFound
  /-- 400 "Invalid role. Must be one of: ..." -/
  | invalidRole (role : String)
  /-- 400 "Cannot change your own approval status" -/
  | cannotChangeSelf
  /-- 400 "Cannot decline an already approved user. ..." -/
  | cannotDeclineApproved
  /-- 400 "Permissions can only be set for STAFF role" -/
  | permissionsOnlyForStaff
  /-- 400 "Invalid permission module: \x7bmodule\x7d. ..." -/
  | invalidPermissionModule (module : String)
  /-- 400 "Invalid permission level for \x7bmodule\x7d: \x7blevel\x7d. ..." -/
  | invalidPermissionLevel (module level : String)
  /-- 400 "Staff cannot have edit permission for users" -/
  | staffUsersEditForbidden
  /-- 400 "No update data provided" -/
  | noUpdateData
  deriving DecidableEq, Repr

/-! ## Single stock adjustment (`routers/inventory.py`, `create_stock_adjustment`) -/

/-- The request body `StockAdjustmentCreate` of `models/inventory_models.py`. -/
structure StockAdjustmentCreate where
  product_id : Option String
  variant_id : Option String
  type : String
  quantity : Int
  reason : Option String
  notes : Option String
  deriving DecidableEq, Repr

/-- `create_stock_adjustment` of `routers/inventory.py` (lines 73-143): read the
target's stock, reject a negative result, otherwise update the counter and
write the ledger row inside the same transaction.  The `adjusted_by` argument
is the acting user's email. -/
def create_stock_adjustment (adjustment : StockAdjustmentCreate) (adjusted_by : String)
    (db : DB) : Except ApiError (DB × StockAdjustment) :=
  match adjustment.variant_id with
  | some vid =>
    match findVariant db vid with
    | none => .error .variantNotFound
    | some variant =>
      let current_stock := variant.stock
      let new_stock := current_stock + adjustment.quantity
      if new_stock < 0 then .error (.negativeStock new_stock)
      else
        let adj : StockAdjustment :=
          { productId := adjustment.product_id, variantId := some vid,
            productName := (findProduct db variant.productId).map (fun p => p.name),
            variantName := some variant.name, type := adjustment.type,
            quantity := adjustment.quantity, previousStock := current_stock,
            newStock := new_stock, orderId := none, reason := adjustment.reason,
            notes := adjustment.notes, adjustedBy := some adjusted_by }
        .ok (appendAdjustment (setVariantStock db vid new_stock) adj, adj)
  | none =>
    match adjustment.product_id with
    | none => .error .badRequestMissingTarget
    | some pid =>
      match findProduct db pid with
      | none => .error .productNotFound
      | some product =>
        let current_stock := product.stock
        let new_stock := current_stock + adjustment.quantity
        if new_stock < 0 then .error (.negativeStock new_stock)
        else
          let adj : StockAdjustment :=
            { productId := some pid, variantId := none,
              productName := some product.name, variantName := none,
              type := adjustment.type, quantity := adjustment.quantity,
              previousStock := current_stock, newStock := new_stock,
              orderId := none, reason := adjustment.reason,
              notes := adjustment.notes, adjustedBy := some adjusted_by }
          .ok (appendAdjustment (setProductStock db pid new_stock) adj, adj)

/-! ## Order creation (`routers/orders.py`, `create_order`) -/

/-- The request line item `OrderItemCreate` of `models/order_models.py`
(pydantic enforces `quantity > 0` and `unit_price > 0`). -/
structure OrderItemCreate where
  product_id : Option String
  variant_id : Option String
  product_name : String
  unit_price : Int
  quantity : Int
  deriving DecidableEq, Repr

/-- The request body `OrderCreate` (pydantic enforces at least one item). -/
structure OrderCreate where
  items : List OrderItemCreate
  shipping_cost : Int
  tax_amount : Int
  discount_amount : Int
  notes : Option String
  deriving DecidableEq, Repr

/-- One iteration of the stock loop of `create_order` (lines 213-270): if the
item names a variant, decrement that variant's counter and record a SALE
adjustment; else if it names a product, do the same on the product; a target
that does not exist is skipped without any write. -/
def create_order_item_stock (order_id order_number : String) (db : DB)
    (item : OrderItemCreate) : DB :=
  match item.variant_id with
  | some vid =>
    match findVariant db vid with
    | some variant =>
      let previous_stock := variant.stock
      let new_stock := previous_stock - item.quantity
      appendAdjustment (setVariantStock db vid new_stock)
        { productId := item.product_id, variantId := some vid,
          productName := (findProduct db variant.productId).map (fun p => p.name),
          variantName := some variant.name, type := "SALE",
          quantity := -item.quantity, previousStock := previous_stock,
          newStock := new_stock, orderId := some order_id,
          reason := some ("Order " ++ order_number), notes := none, adjustedBy := none }
    | none => db
  | none =>
    match item.product_id with
    | some pid =>
      match findProduct db pid with
      | some product_item =>
        let previous_stock := product_item.stock
        let new_stock := previous_stock - item.quantity
        appendAdjustment (setProductStock db pid new_stock)
          { productId := some pid, variantId := none,
            productName := some product_item.name, variantName := none,
            type := "SALE", quantity := -item.quantity, previousStock := previous_stock,
            newStock := new_stock, orderId := some order_id,
            reason := some ("Order " ++ order_number), notes := none, adjustedBy := none }
      | none => db
    | none => db

/-- `create_order` of `routers/orders.py` (lines 126-292): compute totals,
persist the order and its items, run the stock loop for every item, and
append the initial PENDING history row — all in one transaction.  `order_id`
and `order_number` stand for the generated id and `generate_order_number()`
value; `changed_by` is the acting user's email.  The source performs no
stock check and cannot fail, so the result is a plain pair. -/
def create_order (order_data : OrderCreate) (order_id order_number changed_by : String)
    (db : DB) : DB × Order :=
  let subtotal := (order_data.items.map (fun i => i.unit_price * i.quantity)).sum
  let total := subtotal + order_data.shipping_cost + order_data.tax_amount
    - order_data.discount_amount
  let order : Order :=
    { id := order_id, orderNumber := order_number, status := "PENDING",
      subtotal := subtotal, shippingCost := order_data.shipping_cost,
      taxAmount := order_data.tax_amount, discountAmount := order_data.discount_amount,
      total := total, shippedAt := none, deliveredAt := none, cancelledAt := none }
  let items := order_data.items.map (fun i =>
    ({ orderId := order_id, productId := i.product_id, variantId := i.variant_id,
       productName := i.product_name, unitPrice := i.unit_price, quantity := i.quantity,
       subtotal := i.unit_price * i.quantity } : OrderItem))
  let db1 : DB := { db with orders := db.orders ++ [order],
                            orderItems := db.orderItems ++ items }
  let db2 := order_data.items.foldl (create_order_item_stock order_id order_number) db1
  let db3 : DB := { db2 with history := db2.history ++
    [{ orderId := order_id, fromStatus := none, toStatus := "PENDING",
       note := some "Order created", changedBy := changed_by }] }
  (db3, order)

/-! ## Order status transition (`routers/orders.py`, `update_order_status`) -/

/-- One iteration of the cancellation restore loop (lines 561-613): return the
item's quantity to its variant or product counter and record a RETURN
adjustment; a missing target is skipped. -/
def cancel_restore_item (order_id order_number : String) (db : DB) (item : OrderItem) : DB :=
  match item.variantId with
  | some vid =>
    match findVariant db vid with
    | some variant =>
      let previous_stock := variant.stock
      let new_stock := previous_stock + item.quantity
      appendAdjustment (setVariantStock db vid new_stock)
        { productId := item.productId, variantId := some vid,
          productName := (findProduct db variant.productId).map (fun p => p.name),
          variantName := some variant.name, type := "RETURN",
          quantity := item.quantity, previousStock := previous_stock,
          newStock := new_stock, orderId := some order_id,
          reason := some ("Order " ++ order_number ++ " cancelled"),
          notes := none, adjustedBy := none }
    | none => db
  | none =>
    match item.productId with
    | some pid =>
      match findProduct db pid with
      | some product_item =>
        let previous_stock := product_item.stock
        let new_stock := previous_stock + item.quantity
        appendAdjustment (setProductStock db pid new_stock)
          { productId := some pid, variantId := none,
            productName := some product_item.name, variantName := none,
            type := "RETURN", quantity := item.quantity, previousStock := previous_stock,
            newStock := new_stock, orderId := some order_id,
            reason := some ("Order " ++ order_number ++ " cancelled"),
            notes := none, adjustedBy := none }
      | none => db
    | none => db

/-- One iteration of the un-cancel loop (lines 616-665): decrement the item's
quantity again (SALE, negative delta) with no negative-stock check; a missing
target is skipped. -/
def uncancel_sale_item (order_id order_number : String) (db : DB) (item : OrderItem) : DB :=
  match item.variantId with
  | some vid =>
    match findVariant db vid with
    | some variant =>
      let previous_stock := variant.stock
      let new_stock := previous_stock - item.quantity
      appendAdjustment (setVariantStock db vid new_stock)
        { productId := item.productId, variantId := some vid,
          productName := (findProduct db variant.productId).map (fun p => p.name),
          variantName := some variant.name, type := "SALE",
          quantity := -item.quantity, previousStock := previous_stock,
          newStock := new_stock, orderId := some order_id,
          reason := some ("Order " ++ order_number ++ " restored"),
          notes := none, adjustedBy := none }
    | none => db
  | none =>
    match item.productId with
    | some pid =>
      match findProduct db pid with
      | some product_item =>
        let previous_stock := product_item.stock
        let new_stock := previous_stock - item.quantity
        appendAdjustment (setProductStock db pid new_stock)
          { productId := some pid, variantId := none,
            productName := some product_item.name, variantName := none,
            type := "SALE", quantity := -item.quantity, previousStock := previous_stock,
            newStock := new_stock, orderId := some order_id,
            reason := some ("Order " ++ order_number ++ " restored"),
            notes := none, adjustedBy := none }
      | none => db
    | none => db

/-- The `update_data` timestamp stamping of `update_order_status` (lines
532-540): at most one of shippedAt/deliveredAt/cancelledAt is stamped with
the current time, and only if it was unset on the existing order. -/
def stamp_status_timestamps (new_status : String) (existing_order : Order) (now : Nat)
    (o : Order) : Order :=
  if new_status = "SHIPPED" ∧ existing_order.shippedAt = none then
    { o with shippedAt := some now }
  else if new_status = "DELIVERED" ∧ existing_order.deliveredAt = none then
    { o with deliveredAt := some now }
  else if new_status = "CANCELLED" ∧ existing_order.cancelledAt = none then
    { o with cancelledAt := some now }
  else o

/-- `update_order_status` of `routers/orders.py` (lines 512-676): set the new
status (stamping at most one of shippedAt/deliveredAt/cancelledAt if unset),
append one history row, then run the restore loop on a transition into
CANCELLED or the re-decrement loop on a transition out of CANCELLED.  `now`
stands for `datetime.utcnow()`.  The only failure is a missing order; the
stock loops never fail. -/
def update_order_status (order_id new_status : String) (note : Option String)
    (changed_by : String) (now : Nat) (db : DB) : Except ApiError DB :=
  match db.orders.find? (fun o => o.id == order_id) with
  | none => .error .orderNotFound
  | some existing_order =>
    let old_status := existing_order.status
    let stamp : Order → Order := stamp_status_timestamps new_status existing_order now
    let db1 : DB := { db with orders := db.orders.map (fun o =>
      if o.id == order_id then stamp { o with status := new_status } else o) }
    let db2 : DB := { db1 with history := db1.history ++
      [{ orderId := order_id, fromStatus := some old_status, toStatus := new_status,
         note := note, changedBy := changed_by }] }
    let db3 :=
      if new_status = "CANCELLED" ∧ old_status ≠ "CANCELLED" then
        (db2.orderItems.filter (fun i => i.orderId == order_id)).foldl
          (cancel_restore_item order_id existing_order.orderNumber) db2
      else db2
    let db4 :=
      if old_status = "CANCELLED" ∧ new_status ≠ "CANCELLED" then
        (db3.orderItems.filter (fun i => i.orderId == order_id)).foldl
          (uncancel_sale_item order_id existing_order.orderNumber) db3
      else db3
    .ok db4

/-- `delete_order` of `routers/orders.py` (lines 679-706): delete the order's
items and its status-history rows, then the order itself. -/
def delete_order (order_id : String) (db : DB) : Except ApiError DB :=
  match db.orders.find? (fun o => o.id == order_id) with
  | none => .error .orderNotFound
  | some _ =>
    .ok { db with
      orderItems := db.orderItems.filter (fun i => !(i.orderId == order_id)),
      history := db.history.filter (fun h => !(h.orderId == order_id)),
      orders := db.orders.filter (fun o => !(o.id == order_id)) }

/-! ## Generic list helper lemmas -/

/-- Updating the row whose key matches and then looking the key up finds the
updated row, provided the update keeps the key. -/
theorem find?_map_update {α : Type} (l : List α) (idf : α → String) (key : String)
    (f : α → α) (hid : ∀ a, idf (f a) = idf a) (a : α)
    (h : l.find? (fun x => idf x == key) = some a) :
    (l.map (fun x => if idf x == key then f x else x)).find? (fun x => idf x == key)
      = some (f a) := by
  have hcomp : ((fun x => idf x == key) ∘ (fun x => if idf x == key then f x else x))
      = fun x => idf x == key := by
    funext x
    by_cases hx : (idf x == key) = true
    · simp only [Function.comp_apply, if_pos hx, hid]
    · simp only [Function.comp_apply, if_neg hx]
  rw [List.find?_map, hcomp, h]
  have ha := List.find?_some h
  simp only [Option.map_some']
  rw [if_pos (show (idf a == key) = true from ha)]

/-- A fold whose step preserves a projection of the state preserves it overall. -/
theorem foldl_preserves {α β : Type} (f : DB → α → DB) (g : DB → β)
    (hf : ∀ db x, g (f db x) = g db) :
    ∀ (l : List α) (db : DB), g (l.foldl f db) = g db := by
  intro l
  induction l with
  | nil => intro db; rfl
  | cons a t ih => intro db; rw [List.foldl_cons, ih, hf]

/-- `findProduct` after `setProductStock` on the same id. -/
theorem findProduct_setProductStock_self (db : DB) (pid : String) (s : Int) (p : Product)
    (h : findProduct db pid = some p) :
    findProduct (setProductStock db pid s) pid = some { p with stock := s } :=
  find?_map_update db.products (fun q => q.id) pid (fun q => { q with stock := s })
    (fun _ => rfl) p h

/-- `findVariant` after `setVariantStock` on the same id. -/
theorem findVariant_setVariantStock_self (db : DB) (vid : String) (s : Int)
    (v : ProductVariant) (h : findVariant db vid = some v) :
    findVariant (setVariantStock db vid s) vid = some { v with stock := s } :=
  find?_map_update db.variants (fun q => q.id) vid (fun q => { q with stock := s })
    (fun _ => rfl) v h

/-! ## C5: negative-stock guard of the single stock adjustment -/

/-- The stock counter the endpoint reads for the request's target, following
the same variant-first chain as the source. -/
def targetStock (db : DB) (adjustment : StockAdjustmentCreate) : Option Int :=
  match adjustment.variant_id with
  | some vid => (findVariant db vid).map (fun v => v.stock)
  | none =>
    match adjustment.product_id with
    | some pid => (findProduct db pid).map (fun p => p.stock)
    | none => none

/-- C5: when the adjustment's target exists with stock `s`, the endpoint fails
with NegativeStock (writing nothing: an error models a rolled-back
transaction) exactly when `s + quantity < 0`, and otherwise succeeds,
appends exactly one ledger row with `previousStock = s` and
`newStock = s + quantity`, and returns that row. -/
theorem single_adjustment_negative_stock_guard (db : DB)
    (adjustment : StockAdjustmentCreate) (adjusted_by : String) (s : Int)
    (h : targetStock db adjustment = some s) :
    (s + adjustment.quantity < 0 →
      create_stock_adjustment adjustment adjusted_by db
        = .error (.negativeStock (s + adjustment.quantity))) ∧
    (0 ≤ s + adjustment.quantity →
      ∃ db2 adj, create_stock_adjustment adjustment adjusted_by db = .ok (db2, adj) ∧
        adj.previousStock = s ∧ adj.newStock = s + adjustment.quantity ∧
        adj.quantity = adjustment.quantity ∧
        db2.adjustments = db.adjustments ++ [adj]) := by
  unfold targetStock at h
  rcases hvid : adjustment.variant_id with _ | vid
  · rcases hpid : adjustment.product_id with _ | pid
    · simp [hvid, hpid] at h
    · rcases hfp : findProduct db pid with _ | p
      · simp [hvid, hpid, hfp] at h
      · simp only [hvid, hpid, hfp, Option.map_some', Option.some.injEq] at h
        subst h
        constructor
        · intro hneg
          simp only [create_stock_adjustment, hvid, hpid, hfp]
          rw [if_pos hneg]
        · intro hpos
          have hif : ¬ (p.stock + adjustment.quantity < 0) := not_lt.mpr hpos
          refine ⟨appendAdjustment (setProductStock db pid (p.stock + adjustment.quantity))
              { productId := some pid, variantId := none, productName := some p.name,
                variantName := none, type := adjustment.type,
                quantity := adjustment.quantity, previousStock := p.stock,
                newStock := p.stock + adjustment.quantity, orderId := none,
                reason := adjustment.reason, notes := adjustment.notes,
                adjustedBy := some adjusted_by },
            { productId := some pid, variantId := none, productName := some p.name,
              variantName := none, type := adjustment.type,
              quantity := adjustment.quantity, previousStock := p.stock,
              newStock := p.stock + adjustment.quantity, orderId := none,
              reason := adjustment.reason, notes := adjustment.notes,
              adjustedBy := some adjusted_by }, ?_, rfl, rfl, rfl, ?_⟩
          · simp only [create_stock_adjustment, hvid, hpid, hfp]
            rw [if_neg hif]
          · simp [appendAdjustment, setProductStock]
  · rcases hfv : findVariant db vid with _ | v
    · simp [hvid, hfv] at h
    · simp only [hvid, hfv, Option.map_some', Option.some.injEq] at h
      subst h
      constructor
      · intro hneg
        simp only [create_stock_adjustment, hvid, hfv]
        rw [if_pos hneg]
      · intro hpos
        have hif : ¬ (v.stock + adjustment.quantity < 0) := not_lt.mpr hpos
        refine ⟨appendAdjustment (setVariantStock db vid (v.stock + adjustment.quantity))
            { productId := adjustment.product_id, variantId := some vid,
              productName := (findProduct db v.productId).map (fun p => p.name),
              variantName := some v.name, type := adjustment.type,
              quantity := adjustment.quantity, previousStock := v.stock,
              newStock := v.stock + adjustment.quantity, orderId := none,
              reason := adjustment.reason, notes := adjustment.notes,
              adjustedBy := some adjusted_by },
          { productId := adjustment.product_id, variantId := some vid,
            productName := (findProduct db v.productId).map (fun p => p.name),
            variantName := some v.name, type := adjustment.type,
            quantity := adjustment.quantity, previousStock := v.stock,
            newStock := v.stock + adjustment.quantity, orderId := none,
            reason := adjustment.reason, notes := adjustment.notes,
            adjustedBy := some adjusted_by }, ?_, rfl, rfl, rfl, ?_⟩
        · simp only [create_stock_adjustment, hvid, hfv]
          rw [if_neg hif]
        · simp [appendAdjustment, setVariantStock]

/-- Witness for `single_adjustment_negative_stock_guard`: a product with stock 1
rejects a delta of −2 and accepts a delta of +3. -/
theorem single_adjustment_negative_stock_guard_witness :
    (create_stock_adjustment
        { product_id := some "p1", variant_id := none, type := "DECREASE",
          quantity := -2, reason := none, notes := none } "a@x"
        { products := [{ id := "p1", name := "P", stock := 1 }], variants := [],
          orders := [], orderItems := [], adjustments := [], history := [] }
      = .error (.negativeStock (-1))) ∧
    (∃ db2 adj,
      create_stock_adjustment
        { product_id := some "p1", variant_id := none, type := "INCREASE",
          quantity := 3, reason := none, notes := none } "a@x"
        { products := [{ id := "p1", name := "P", stock := 1 }], variants := [],
          orders := [], orderItems := [], adjustments := [], history := [] }
      = .ok (db2, adj) ∧ adj.previousStock = 1 ∧ adj.newStock = 1 + 3 ∧
      adj.quantity = 3 ∧ db2.adjustments = [] ++ [adj]) := by
  constructor
  · exact (single_adjustment_negative_stock_guard _ _ "a@x" 1 (by decide)).1 (by decide)
  · exact (single_adjustment_negative_stock_guard _ _ "a@x" 1 (by decide)).2 (by decide)

/-! ## C1: order creation performs no stock check -/

/-- C1 counterexample: product "p1" has stock 1 and the order asks for
quantity 2 (exceeding stock), yet `create_order` does not fail with
NegativeStock and does not roll back: the Order row, the OrderItem row, a
SALE StockAdjustment row, and a stock counter driven to −1 are all
observable afterwards, contradicting the claim as stated. -/
theorem create_order_oversell_counterexample :
    let db : DB := { products := [{ id := "p1", name := "P", stock := 1 }], variants := [],
                     orders := [], orderItems := [], adjustments := [], history := [] }
    let res := create_order
      { items := [{ product_id := some "p1", variant_id := none, product_name := "P",
                    unit_price := 5, quantity := 2 }],
        shipping_cost := 0, tax_amount := 0, discount_amount := 0, notes := none }
      "o1" "ORD-1" "admin@x" db
    (res.1.orders.length = 1 ∧ res.2.status = "PENDING") ∧
    res.1.orderItems.length = 1 ∧
    (res.1.products.map (fun p => p.stock)) = [-1] ∧
    (res.1.adjustments.map (fun a => (a.type, a.quantity, a.previousStock, a.newStock)))
      = [("SALE", -2, 1, -1)] := by
  decide

/-- C1 (amended): for an order-creation request whose item references an
existing product and asks for more than the current stock, `create_order`
still succeeds in full — it appends the Order row, sets the product's
counter to `previousStock − quantity` (which is negative), appends the
matching SALE StockAdjustment row, and appends the initial PENDING history
row.  No NegativeStock failure exists in this code path. -/
theorem create_order_unchecked_decrement (db : DB) (item : OrderItemCreate)
    (shipping_cost tax_amount discount_amount : Int) (notes : Option String)
    (pid order_id order_number changed_by : String) (p : Product)
    (dbOut : DB) (order : Order)
    (hvar : item.variant_id = none) (hpid : item.product_id = some pid)
    (hfound : findProduct db pid = some p)
    (hqty : 0 < item.quantity) (hover : p.stock < item.quantity)
    (hrun : create_order
      { items := [item], shipping_cost := shipping_cost, tax_amount := tax_amount,
        discount_amount := discount_amount, notes := notes }
      order_id order_number changed_by db = (dbOut, order)) :
    dbOut.orders = db.orders ++ [order] ∧
    order.status = "PENDING" ∧
    findProduct dbOut pid = some { p with stock := p.stock - item.quantity } ∧
    p.stock - item.quantity < 0 ∧
    dbOut.adjustments = db.adjustments ++
      [{ productId := some pid, variantId := none, productName := some p.name,
         variantName := none, type := "SALE", quantity := -item.quantity,
         previousStock := p.stock, newStock := p.stock - item.quantity,
         orderId := some order_id, reason := some ("Order " ++ order_number),
         notes := none, adjustedBy := none }] ∧
    dbOut.history = db.history ++
      [{ orderId := order_id, fromStatus := none, toStatus := "PENDING",
         note := some "Order created", changedBy := changed_by }] := by
  have hfound' : db.products.find? (fun q => q.id == pid) = some p := hfound
  have hneg : p.stock - item.quantity < 0 := by omega
  simp only [create_order, List.map_cons, List.map_nil, List.foldl_cons, List.foldl_nil,
    create_order_item_stock, hvar, hpid, findProduct, hfound'] at hrun
  injection hrun with h1 h2
  subst h1
  subst h2
  refine ⟨rfl, rfl, ?_, hneg, rfl, rfl⟩
  exact findProduct_setProductStock_self
    { db with
      orders := db.orders ++ [_], orderItems := db.orderItems ++ [_] }
    pid (p.stock - item.quantity) p hfound

/-! ## C9: a missing product/variant reference is silently skipped -/

/-- C9 counterexample: the first order's single item references product
"ghost" and the second order's single item references variant "ghostv",
neither of which exists; yet `create_order` does not fail with TargetNotFound
in either case: the orders and their items are created, and no adjustment or
counter change occurs, contradicting the claim as stated. -/
theorem create_order_missing_target_counterexample :
    let db : DB := { products := [], variants := [], orders := [], orderItems := [],
                     adjustments := [], history := [] }
    let res := create_order
      { items := [{ product_id := some "ghost", variant_id := none, product_name := "G",
                    unit_price := 5, quantity := 1 }],
        shipping_cost := 0, tax_amount := 0, discount_amount := 0, notes := none }
      "o1" "ORD-1" "admin@x" db
    let resv := create_order
      { items := [{ product_id := none, variant_id := some "ghostv", product_name := "GV",
                    unit_price := 5, quantity := 1 }],
        shipping_cost := 0, tax_amount := 0, discount_amount := 0, notes := none }
      "o2" "ORD-2" "admin@x" db
    (findProduct db "ghost" = none ∧
      res.1.orders.length = 1 ∧ res.1.orderItems.length = 1 ∧
      res.1.adjustments = [] ∧ res.1.history.length = 1) ∧
    (findVariant db "ghostv" = none ∧
      resv.1.orders.length = 1 ∧ resv.1.orderItems.length = 1 ∧
      resv.1.adjustments = [] ∧ resv.1.history.length = 1) := by
  decide

/-- C9 (amended): when an order item's product or variant reference does not
exist, the stock loop of `create_order` silently skips it: no adjustment row
is written and no counter is changed for that item, but the Order row, the
OrderItem row and the initial history row are still created; no
TargetNotFound failure is raised.  The first conjunct covers an item whose
product reference is missing, the second an item whose variant reference is
missing. -/
theorem create_order_missing_target_skipped :
    (∀ (db : DB) (item : OrderItemCreate)
        (shipping_cost tax_amount discount_amount : Int) (notes : Option String)
        (pid order_id order_number changed_by : String) (dbOut : DB) (order : Order),
      item.variant_id = none → item.product_id = some pid →
      findProduct db pid = none →
      create_order
        { items := [item], shipping_cost := shipping_cost, tax_amount := tax_amount,
          discount_amount := discount_amount, notes := notes }
        order_id order_number changed_by db = (dbOut, order) →
      dbOut.orders = db.orders ++ [order] ∧
      dbOut.orderItems = db.orderItems ++
        [{ orderId := order_id, productId := item.product_id,
           variantId := item.variant_id, productName := item.product_name,
           unitPrice := item.unit_price, quantity := item.quantity,
           subtotal := item.unit_price * item.quantity }] ∧
      dbOut.products = db.products ∧
      dbOut.variants = db.variants ∧
      dbOut.adjustments = db.adjustments ∧
      dbOut.history = db.history ++
        [{ orderId := order_id, fromStatus := none, toStatus := "PENDING",
           note := some "Order created", changedBy := changed_by }]) ∧
    (∀ (db : DB) (item : OrderItemCreate)
        (shipping_cost tax_amount discount_amount : Int) (notes : Option String)
        (vid order_id order_number changed_by : String) (dbOut : DB) (order : Order),
      item.variant_id = some vid →
      findVariant db vid = none →
      create_order
        { items := [item], shipping_cost := shipping_cost, tax_amount := tax_amount,
          discount_amount := discount_amount, notes := notes }
        order_id order_number changed_by db = (dbOut, order) →
      dbOut.orders = db.orders ++ [order] ∧
      dbOut.orderItems = db.orderItems ++
        [{ orderId := order_id, productId := item.product_id,
           variantId := item.variant_id, productName := item.product_name,
           unitPrice := item.unit_price, quantity := item.quantity,
           subtotal := item.unit_price * item.quantity }] ∧
      dbOut.products = db.products ∧
      dbOut.variants = db.variants ∧
      dbOut.adjustments = db.adjustments ∧
      dbOut.history = db.history ++
        [{ orderId := order_id, fromStatus := none, toStatus := "PENDING",
           note := some "Order created", changedBy := changed_by }]) := by
  constructor
  · intro db item shipping_cost tax_amount discount_amount notes pid order_id
      order_number changed_by dbOut order hvar hpid hmissing hrun
    have hmissing' : db.products.find? (fun q => q.id == pid) = none := hmissing
    simp only [create_order, List.map_cons, List.map_nil, List.foldl_cons,
      List.foldl_nil, create_order_item_stock, hvar, hpid, findProduct,
      hmissing'] at hrun
    injection hrun with h1 h2
    subst h1
    subst h2
    refine ⟨rfl, ?_, rfl, rfl, rfl, rfl⟩
    rw [hpid, hvar]
  · intro db item shipping_cost tax_amount discount_amount notes vid order_id
      order_number changed_by dbOut order hvar hmissing hrun
    have hmissing' : db.variants.find? (fun q => q.id == vid) = none := hmissing
    simp only [create_order, List.map_cons, List.map_nil, List.foldl_cons,
      List.foldl_nil, create_order_item_stock, hvar, findVariant,
      hmissing'] at hrun
    injection hrun with h1 h2
    subst h1
    subst h2
    refine ⟨rfl, ?_, rfl, rfl, rfl, rfl⟩
    rw [hvar]

/-- Witness for `create_order_unchecked_decrement` at a concrete oversell. -/
theorem create_order_unchecked_decrement_witness :
    let db : DB := { products := [{ id := "p2", name := "Q", stock := 1 }], variants := [],
                     orders := [], orderItems := [], adjustments := [], history := [] }
    let res := create_order
      { items := [{ product_id := some "p2", variant_id := none, product_name := "Q",
                    unit_price := 4, quantity := 3 }],
        shipping_cost := 0, tax_amount := 0, discount_amount := 0, notes := none }
      "o9" "ORD-9" "adm@x" db
    res.1.orders = db.orders ++ [res.2] ∧
    res.2.status = "PENDING" ∧
    findProduct res.1 "p2" = some { id := "p2", name := "Q", stock := 1 - 3 } ∧
    (1 : Int) - 3 < 0 ∧
    res.1.adjustments = db.adjustments ++
      [{ productId := some "p2", variantId := none, productName := some "Q",
         variantName := none, type := "SALE", quantity := -3,
         previousStock := 1, newStock := 1 - 3, orderId := some "o9",
         reason := some ("Order " ++ "ORD-9"), notes := none, adjustedBy := none }] ∧
    res.1.history = db.history ++
      [{ orderId := "o9", fromStatus := none, toStatus := "PENDING",
         note := some "Order created", changedBy := "adm@x" }] :=
  create_order_unchecked_decrement
    { products := [{ id := "p2", name := "Q", stock := 1 }], variants := [],
      orders := [], orderItems := [], adjustments := [], history := [] }
    { product_id := some "p2", variant_id := none, product_name := "Q",
      unit_price := 4, quantity := 3 }
    0 0 0 none "p2" "o9" "ORD-9" "adm@x"
    { id := "p2", name := "Q", stock := 1 } _ _
    rfl rfl rfl (by decide) (by decide) rfl

/-- Witness for `create_order_missing_target_skipped`: one order referencing
a missing product and one referencing a missing variant. -/
theorem create_order_missing_target_skipped_witness :
    (let db : DB := { products := [{ id := "p3", name := "R", stock := 7 }],
                      variants := [], orders := [], orderItems := [],
                      adjustments := [], history := [] }
     let res := create_order
      { items := [{ product_id := some "nope", variant_id := none, product_name := "N",
                    unit_price := 2, quantity := 1 }],
        shipping_cost := 0, tax_amount := 0, discount_amount := 0, notes := none }
      "o8" "ORD-8" "adm@x" db
     res.1.orders = db.orders ++ [res.2] ∧
     res.1.orderItems = db.orderItems ++
       [{ orderId := "o8", productId := some "nope", variantId := none,
          productName := "N", unitPrice := 2, quantity := 1, subtotal := 2 * 1 }] ∧
     res.1.products = db.products ∧
     res.1.variants = db.variants ∧
     res.1.adjustments = db.adjustments ∧
     res.1.history = db.history ++
       [{ orderId := "o8", fromStatus := none, toStatus := "PENDING",
          note := some "Order created", changedBy := "adm@x" }]) ∧
    (let db : DB := { products := [{ id := "p3", name := "R", stock := 7 }],
                      variants := [], orders := [], orderItems := [],
                      adjustments := [], history := [] }
     let res := create_order
      { items := [{ product_id := none, variant_id := some "nopev", product_name := "NV",
                    unit_price := 2, quantity := 1 }],
        shipping_cost := 0, tax_amount := 0, discount_amount := 0, notes := none }
      "o6" "ORD-6" "adm@x" db
     res.1.orders = db.orders ++ [res.2] ∧
     res.1.orderItems = db.orderItems ++
       [{ orderId := "o6", productId := none, variantId := some "nopev",
          productName := "NV", unitPrice := 2, quantity := 1, subtotal := 2 * 1 }] ∧
     res.1.products = db.products ∧
     res.1.variants = db.variants ∧
     res.1.adjustments = db.adjustments ∧
     res.1.history = db.history ++
       [{ orderId := "o6", fromStatus := none, toStatus := "PENDING",
          note := some "Order created", changedBy := "adm@x" }]) :=
  ⟨create_order_missing_target_skipped.1 _ _ 0 0 0 none "nope" "o8" "ORD-8" "adm@x" _ _
      rfl rfl (by decide) rfl,
    create_order_missing_target_skipped.2 _ _ 0 0 0 none "nopev" "o6" "ORD-6" "adm@x" _ _
      rfl (by decide) rfl⟩

/-! ## C2: un-cancelling never aborts on insufficient stock -/

/-- The timestamp stamping never changes an order's id. -/
theorem stamp_status_timestamps_id (ns : String) (eo : Order) (now : Nat) (o : Order) :
    (stamp_status_timestamps ns eo now o).id = o.id := by
  unfold stamp_status_timestamps
  by_cases h1 : ns = "SHIPPED" ∧ eo.shippedAt = none
  · rw [if_pos h1]
  · rw [if_neg h1]
    by_cases h2 : ns = "DELIVERED" ∧ eo.deliveredAt = none
    · rw [if_pos h2]
    · rw [if_neg h2]
      by_cases h3 : ns = "CANCELLED" ∧ eo.cancelledAt = none
      · rw [if_pos h3]
      · rw [if_neg h3]

/-- The timestamp stamping never changes an order's status. -/
theorem stamp_status_timestamps_status (ns : String) (eo : Order) (now : Nat) (o : Order) :
    (stamp_status_timestamps ns eo now o).status = o.status := by
  unfold stamp_status_timestamps
  by_cases h1 : ns = "SHIPPED" ∧ eo.shippedAt = none
  · rw [if_pos h1]
  · rw [if_neg h1]
    by_cases h2 : ns = "DELIVERED" ∧ eo.deliveredAt = none
    · rw [if_pos h2]
    · rw [if_neg h2]
      by_cases h3 : ns = "CANCELLED" ∧ eo.cancelledAt = none
      · rw [if_pos h3]
      · rw [if_neg h3]

/-- C2 counterexample: order "o1" is CANCELLED with one item of quantity 2 on
product "p1" whose stock is 1, and order "o2" is CANCELLED with one item of
quantity 2 on variant "v1" whose stock is 1; un-cancelling either to
CONFIRMED would drive the respective counter to −1, yet both transactions
succeed: each order becomes CONFIRMED, a history row is appended, a SALE
adjustment is written and the counter is −1 — nothing aborts, contradicting
the claim as stated for both product- and variant-targeted items. -/
theorem uncancel_oversell_counterexample :
    (let db : DB :=
      { products := [{ id := "p1", name := "P", stock := 1 }], variants := [],
        orders := [{ id := "o1", orderNumber := "ORD-1", status := "CANCELLED",
                     subtotal := 10, shippingCost := 0, taxAmount := 0,
                     discountAmount := 0, total := 10, shippedAt := none,
                     deliveredAt := none, cancelledAt := some 5 }],
        orderItems := [{ orderId := "o1", productId := some "p1", variantId := none,
                         productName := "P", unitPrice := 5, quantity := 2,
                         subtotal := 10 }],
        adjustments := [], history := [] }
     ∃ db4, update_order_status "o1" "CONFIRMED" none "adm@x" 9 db = .ok db4 ∧
      (db4.products.map (fun p => p.stock)) = [-1] ∧
      (db4.orders.map (fun o => o.status)) = ["CONFIRMED"] ∧
      (db4.adjustments.map (fun a => (a.type, a.quantity, a.previousStock, a.newStock)))
        = [("SALE", -2, 1, -1)] ∧
      db4.history.length = 1) ∧
    (let db : DB :=
      { products := [{ id := "pp", name := "PP", stock := 9 }],
        variants := [{ id := "v1", productId := "pp", name := "V1", stock := 1 }],
        orders := [{ id := "o2", orderNumber := "ORD-2", status := "CANCELLED",
                     subtotal := 10, shippingCost := 0, taxAmount := 0,
                     discountAmount := 0, total := 10, shippedAt := none,
                     deliveredAt := none, cancelledAt := some 5 }],
        orderItems := [{ orderId := "o2", productId := some "pp", variantId := some "v1",
                         productName := "PP", unitPrice := 5, quantity := 2,
                         subtotal := 10 }],
        adjustments := [], history := [] }
     ∃ db4, update_order_status "o2" "CONFIRMED" none "adm@x" 9 db = .ok db4 ∧
      (db4.variants.map (fun v => v.stock)) = [-1] ∧
      (db4.products.map (fun p => p.stock)) = [9] ∧
      (db4.orders.map (fun o => o.status)) = ["CONFIRMED"] ∧
      (db4.adjustments.map (fun a => (a.type, a.quantity, a.previousStock, a.newStock)))
        = [("SALE", -2, 1, -1)] ∧
      db4.history.length = 1) := by
  constructor
  · refine ⟨_, rfl, ?_, ?_, ?_, ?_⟩ <;> decide
  · refine ⟨_, rfl, ?_, ?_, ?_, ?_, ?_⟩ <;> decide

/-- C2 (amended): moving an order out of CANCELLED re-decrements each existing
item target unconditionally: even when the item's quantity exceeds the
product's or variant's current stock, the status-change transaction succeeds
— the order's status becomes the new status, the history row is appended,
and the SALE adjustment drives the counter negative.  No NegativeStock abort
exists in this code path.  The first conjunct covers an order whose item
targets a product counter, the second one whose item targets a variant
counter. -/
theorem uncancel_unchecked_decrement :
    (∀ (db : DB) (order_id new_status : String) (note : Option String)
        (changed_by : String) (now : Nat) (o : Order) (item : OrderItem)
        (pid : String) (p : Product),
      db.orders.find? (fun x => x.id == order_id) = some o →
      o.status = "CANCELLED" → new_status ≠ "CANCELLED" →
      db.orderItems.filter (fun i => i.orderId == order_id) = [item] →
      item.variantId = none → item.productId = some pid →
      findProduct db pid = some p →
      0 < item.quantity → p.stock < item.quantity →
      ∃ db4, update_order_status order_id new_status note changed_by now db = .ok db4 ∧
        findProduct db4 pid = some { p with stock := p.stock - item.quantity } ∧
        p.stock - item.quantity < 0 ∧
        db4.adjustments = db.adjustments ++
          [{ productId := some pid, variantId := none, productName := some p.name,
             variantName := none, type := "SALE", quantity := -item.quantity,
             previousStock := p.stock, newStock := p.stock - item.quantity,
             orderId := some order_id,
             reason := some ("Order " ++ o.orderNumber ++ " restored"),
             notes := none, adjustedBy := none }] ∧
        db4.history = db.history ++
          [{ orderId := order_id, fromStatus := some o.status, toStatus := new_status,
             note := note, changedBy := changed_by }] ∧
        (db4.orders.find? (fun x => x.id == order_id)).map (fun x => x.status)
          = some new_status) ∧
    (∀ (db : DB) (order_id new_status : String) (note : Option String)
        (changed_by : String) (now : Nat) (o : Order) (item : OrderItem)
        (vid : String) (v : ProductVariant),
      db.orders.find? (fun x => x.id == order_id) = some o →
      o.status = "CANCELLED" → new_status ≠ "CANCELLED" →
      db.orderItems.filter (fun i => i.orderId == order_id) = [item] →
      item.variantId = some vid →
      findVariant db vid = some v →
      0 < item.quantity → v.stock < item.quantity →
      ∃ db4, update_order_status order_id new_status note changed_by now db = .ok db4 ∧
        findVariant db4 vid = some { v with stock := v.stock - item.quantity } ∧
        v.stock - item.quantity < 0 ∧
        db4.adjustments = db.adjustments ++
          [{ productId := item.productId, variantId := some vid,
             productName := (findProduct db v.productId).map (fun q => q.name),
             variantName := some v.name, type := "SALE", quantity := -item.quantity,
             previousStock := v.stock, newStock := v.stock - item.quantity,
             orderId := some order_id,
             reason := some ("Order " ++ o.orderNumber ++ " restored"),
             notes := none, adjustedBy := none }] ∧
        db4.history = db.history ++
          [{ orderId := order_id, fromStatus := some o.status, toStatus := new_status,
             note := note, changedBy := changed_by }] ∧
        (db4.orders.find? (fun x => x.id == order_id)).map (fun x => x.status)
          = some new_status) := by
  constructor
  · intro db order_id new_status note changed_by now o item pid p horder hstat hnew
      hitems hvar hpid hfound hqty hover
    have hfound' : db.products.find? (fun q => q.id == pid) = some p := hfound
    have hc1 : ¬ (new_status = "CANCELLED" ∧ o.status ≠ "CANCELLED") :=
      fun h => h.2 hstat
    have hc2 : o.status = "CANCELLED" ∧ new_status ≠ "CANCELLED" := ⟨hstat, hnew⟩
    cases hres : update_order_status order_id new_status note changed_by now db with
    | error e =>
      simp only [update_order_status, horder, if_neg hc1, if_pos hc2, hitems,
        List.foldl_cons, List.foldl_nil, uncancel_sale_item, hvar, hpid, findProduct,
        hfound'] at hres
      exact (Except.noConfusion hres)
    | ok db4 =>
      have hres2 := hres
      simp only [update_order_status, horder, if_neg hc1, if_pos hc2, hitems,
        List.foldl_cons, List.foldl_nil, uncancel_sale_item, hvar, hpid, findProduct,
        hfound'] at hres2
      injection hres2 with h
      subst h
      refine ⟨_, rfl, ?_, ?_, ?_, ?_, ?_⟩
      · exact findProduct_setProductStock_self _ pid (p.stock - item.quantity) p hfound
      · omega
      · rfl
      · rfl
      · have h4 := find?_map_update db.orders (fun x => x.id) order_id
          (fun x => stamp_status_timestamps new_status o now { x with status := new_status })
          (fun a => stamp_status_timestamps_id _ _ _ _) o horder
        show ((db.orders.map (fun o2 =>
            if o2.id == order_id then
              stamp_status_timestamps new_status o now { o2 with status := new_status }
            else o2)).find? (fun x => x.id == order_id)).map (fun x => x.status)
          = some new_status
        rw [h4]
        simp only [Option.map_some', stamp_status_timestamps_status]
  · intro db order_id new_status note changed_by now o item vid v horder hstat hnew
      hitems hvar hfound hqty hover
    have hfound' : db.variants.find? (fun q => q.id == vid) = some v := hfound
    have hc1 : ¬ (new_status = "CANCELLED" ∧ o.status ≠ "CANCELLED") :=
      fun h => h.2 hstat
    have hc2 : o.status = "CANCELLED" ∧ new_status ≠ "CANCELLED" := ⟨hstat, hnew⟩
    cases hres : update_order_status order_id new_status note changed_by now db with
    | error e =>
      simp only [update_order_status, horder, if_neg hc1, if_pos hc2, hitems,
        List.foldl_cons, List.foldl_nil, uncancel_sale_item, hvar, findVariant,
        hfound'] at hres
      exact (Except.noConfusion hres)
    | ok db4 =>
      have hres2 := hres
      simp only [update_order_status, horder, if_neg hc1, if_pos hc2, hitems,
        List.foldl_cons, List.foldl_nil, uncancel_sale_item, hvar, findVariant,
        hfound'] at hres2
      injection hres2 with h
      subst h
      refine ⟨_, rfl, ?_, ?_, ?_, ?_, ?_⟩
      · exact findVariant_setVariantStock_self _ vid (v.stock - item.quantity) v hfound
      · omega
      · rfl
      · rfl
      · have h4 := find?_map_update db.orders (fun x => x.id) order_id
          (fun x => stamp_status_timestamps new_status o now { x with status := new_status })
          (fun a => stamp_status_timestamps_id _ _ _ _) o horder
        show ((db.orders.map (fun o2 =>
            if o2.id == order_id then
              stamp_status_timestamps new_status o now { o2 with status := new_status }
            else o2)).find? (fun x => x.id == order_id)).map (fun x => x.status)
          = some new_status
        rw [h4]
        simp only [Option.map_some', stamp_status_timestamps_status]

/-- Witness for `uncancel_unchecked_decrement`: one concrete oversell on a
product-targeted item and one on a variant-targeted item. -/
theorem uncancel_unchecked_decrement_witness :
    (let db : DB :=
      { products := [{ id := "p1", name := "P", stock := 1 }], variants := [],
        orders := [{ id := "o1", orderNumber := "ORD-1", status := "CANCELLED",
                     subtotal := 10, shippingCost := 0, taxAmount := 0,
                     discountAmount := 0, total := 10, shippedAt := none,
                     deliveredAt := none, cancelledAt := some 5 }],
        orderItems := [{ orderId := "o1", productId := some "p1", variantId := none,
                         productName := "P", unitPrice := 5, quantity := 2,
                         subtotal := 10 }],
        adjustments := [], history := [] }
     ∃ db4, update_order_status "o1" "CONFIRMED" none "adm@x" 9 db = .ok db4 ∧
      findProduct db4 "p1" = some { id := "p1", name := "P", stock := 1 - 2 } ∧
      (1 : Int) - 2 < 0 ∧
      db4.adjustments = db.adjustments ++
        [{ productId := some "p1", variantId := none, productName := some "P",
           variantName := none, type := "SALE", quantity := -2,
           previousStock := 1, newStock := 1 - 2, orderId := some "o1",
           reason := some ("Order " ++ "ORD-1" ++ " restored"),
           notes := none, adjustedBy := none }] ∧
      db4.history = db.history ++
        [{ orderId := "o1", fromStatus := some "CANCELLED", toStatus := "CONFIRMED",
           note := none, changedBy := "adm@x" }] ∧
      (db4.orders.find? (fun x => x.id == "o1")).map (fun x => x.status)
        = some "CONFIRMED") ∧
    (let db : DB :=
      { products := [{ id := "pp", name := "PP", stock := 9 }],
        variants := [{ id := "v1", productId := "pp", name := "V1", stock := 1 }],
        orders := [{ id := "o2", orderNumber := "ORD-2", status := "CANCELLED",
                     subtotal := 10, shippingCost := 0, taxAmount := 0,
                     discountAmount := 0, total := 10, shippedAt := none,
                     deliveredAt := none, cancelledAt := some 5 }],
        orderItems := [{ orderId := "o2", productId := some "pp", variantId := some "v1",
                         productName := "PP", unitPrice := 5, quantity := 2,
                         subtotal := 10 }],
        adjustments := [], history := [] }
     ∃ db4, update_order_status "o2" "CONFIRMED" none "adm@x" 9 db = .ok db4 ∧
      findVariant db4 "v1"
        = some { id := "v1", productId := "pp", name := "V1", stock := 1 - 2 } ∧
      (1 : Int) - 2 < 0 ∧
      db4.adjustments = db.adjustments ++
        [{ productId := some "pp", variantId := some "v1", productName := some "PP",
           variantName := some "V1", type := "SALE", quantity := -2,
           previousStock := 1, newStock := 1 - 2, orderId := some "o2",
           reason := some ("Order " ++ "ORD-2" ++ " restored"),
           notes := none, adjustedBy := none }] ∧
      db4.history = db.history ++
        [{ orderId := "o2", fromStatus := some "CANCELLED", toStatus := "CONFIRMED",
           note := none, changedBy := "adm@x" }] ∧
      (db4.orders.find? (fun x => x.id == "o2")).map (fun x => x.status)
        = some "CONFIRMED") :=
  ⟨uncancel_unchecked_decrement.1
    { products := [{ id := "p1", name := "P", stock := 1 }], variants := [],
      orders := [{ id := "o1", orderNumber := "ORD-1", status := "CANCELLED",
                   subtotal := 10, shippingCost := 0, taxAmount := 0,
                   discountAmount := 0, total := 10, shippedAt := none,
                   deliveredAt := none, cancelledAt := some 5 }],
      orderItems := [{ orderId := "o1", productId := some "p1", variantId := none,
                       productName := "P", unitPrice := 5, quantity := 2,
                       subtotal := 10 }],
      adjustments := [], history := [] }
    "o1" "CONFIRMED" none "adm@x" 9
    { id := "o1", orderNumber := "ORD-1", status := "CANCELLED", subtotal := 10,
      shippingCost := 0, taxAmount := 0, discountAmount := 0, total := 10,
      shippedAt := none, deliveredAt := none, cancelledAt := some 5 }
    { orderId := "o1", productId := some "p1", variantId := none, productName := "P",
      unitPrice := 5, quantity := 2, subtotal := 10 }
    "p1" { id := "p1", name := "P", stock := 1 }
    (by decide) rfl (by decide) (by decide) rfl rfl rfl (by decide) (by decide),
   uncancel_unchecked_decrement.2
    { products := [{ id := "pp", name := "PP", stock := 9 }],
      variants := [{ id := "v1", productId := "pp", name := "V1", stock := 1 }],
      orders := [{ id := "o2", orderNumber := "ORD-2", status := "CANCELLED",
                   subtotal := 10, shippingCost := 0, taxAmount := 0,
                   discountAmount := 0, total := 10, shippedAt := none,
                   deliveredAt := none, cancelledAt := some 5 }],
      orderItems := [{ orderId := "o2", productId := some "pp", variantId := some "v1",
                       productName := "PP", unitPrice := 5, quantity := 2,
                       subtotal := 10 }],
      adjustments := [], history := [] }
    "o2" "CONFIRMED" none "adm@x" 9
    { id := "o2", orderNumber := "ORD-2", status := "CANCELLED", subtotal := 10,
      shippingCost := 0, taxAmount := 0, discountAmount := 0, total := 10,
      shippedAt := none, deliveredAt := none, cancelledAt := some 5 }
    { orderId := "o2", productId := some "pp", variantId := some "v1",
      productName := "PP", unitPrice := 5, quantity := 2, subtotal := 10 }
    "v1" { id := "v1", productId := "pp", name := "V1", stock := 1 }
    (by decide) rfl (by decide) (by decide) rfl rfl (by decide) (by decide)⟩

/-! ## C4: history rows are deleted by delete_order -/

/-- The stock loop of order creation never touches the history table. -/
theorem create_order_item_stock_history (oid onum : String) (db : DB)
    (item : OrderItemCreate) :
    (create_order_item_stock oid onum db item).history = db.history := by
  rcases hv : item.variant_id with _ | vid
  · rcases hp : item.product_id with _ | pid
    · simp [create_order_item_stock, hv, hp]
    · rcases hf : findProduct db pid with _ | prod <;>
        simp [create_order_item_stock, hv, hp, hf, appendAdjustment, setProductStock]
  · rcases hf : findVariant db vid with _ | v <;>
      simp [create_order_item_stock, hv, hf, appendAdjustment, setVariantStock]

/-- The cancellation restore loop never touches the history table. -/
theorem cancel_restore_item_history (oid onum : String) (db : DB) (item : OrderItem) :
    (cancel_restore_item oid onum db item).history = db.history := by
  rcases hv : item.variantId with _ | vid
  · rcases hp : item.productId with _ | pid
    · simp [cancel_restore_item, hv, hp]
    · rcases hf : findProduct db pid with _ | prod <;>
        simp [cancel_restore_item, hv, hp, hf, appendAdjustment, setProductStock]
  · rcases hf : findVariant db vid with _ | v <;>
      simp [cancel_restore_item, hv, hf, appendAdjustment, setVariantStock]

/-- The un-cancel loop never touches the history table. -/
theorem uncancel_sale_item_history (oid onum : String) (db : DB) (item : OrderItem) :
    (uncancel_sale_item oid onum db item).history = db.history := by
  rcases hv : item.variantId with _ | vid
  · rcases hp : item.productId with _ | pid
    · simp [uncancel_sale_item, hv, hp]
    · rcases hf : findProduct db pid with _ | prod <;>
        simp [uncancel_sale_item, hv, hp, hf, appendAdjustment, setProductStock]
  · rcases hf : findVariant db vid with _ | v <;>
      simp [uncancel_sale_item, hv, hf, appendAdjustment, setVariantStock]

/-- Fold form of `create_order_item_stock_history`. -/
theorem foldl_create_order_item_stock_history (oid onum : String) :
    ∀ (l : List OrderItemCreate) (db : DB),
      (l.foldl (create_order_item_stock oid onum) db).history = db.history :=
  foldl_preserves _ DB.history (create_order_item_stock_history oid onum)

/-- Fold form of `cancel_restore_item_history`. -/
theorem foldl_cancel_restore_history (oid onum : String) :
    ∀ (l : List OrderItem) (db : DB),
      (l.foldl (cancel_restore_item oid onum) db).history = db.history :=
  foldl_preserves _ DB.history (cancel_restore_item_history oid onum)

/-- Fold form of `uncancel_sale_item_history`. -/
theorem foldl_uncancel_sale_history (oid onum : String) :
    ∀ (l : List OrderItem) (db : DB),
      (l.foldl (uncancel_sale_item oid onum) db).history = db.history :=
  foldl_preserves _ DB.history (uncancel_sale_item_history oid onum)

/-- C4 counterexample: a state holds one history row for order "o1";
`delete_order "o1"` succeeds and afterwards that history row is gone, so a
history row once written is not present in every later state, contradicting
the claim as stated. -/
theorem delete_order_removes_history_counterexample :
    let db : DB :=
      { products := [], variants := [],
        orders := [{ id := "o1", orderNumber := "ORD-1", status := "PENDING",
                     subtotal := 0, shippingCost := 0, taxAmount := 0,
                     discountAmount := 0, total := 0, shippedAt := none,
                     deliveredAt := none, cancelledAt := none }],
        orderItems := [],
        adjustments := [],
        history := [{ orderId := "o1", fromStatus := none, toStatus := "PENDING",
                      note := some "Order created", changedBy := "adm@x" }] }
    db.history.length = 1 ∧
    delete_order "o1" db
      = .ok { products := [], variants := [], orders := [], orderItems := [],
              adjustments := [], history := [] } :=
  ⟨rfl, rfl⟩

/-- C4 (amended): order status-history rows are never mutated, and the only
operation that removes them is `delete_order`: order creation appends exactly
the initial PENDING row, a successful status update appends exactly one row,
a single stock adjustment leaves history untouched, and a successful
`delete_order` removes exactly the deleted order's rows (leaving every other
row in place, unchanged). -/
theorem history_append_only_except_delete :
    (∀ (order_data : OrderCreate) (order_id order_number changed_by : String) (db : DB),
      (create_order order_data order_id order_number changed_by db).1.history
        = db.history ++
          [{ orderId := order_id, fromStatus := none, toStatus := "PENDING",
             note := some "Order created", changedBy := changed_by }]) ∧
    (∀ (order_id new_status : String) (note : Option String) (changed_by : String)
        (now : Nat) (db db4 : DB),
      update_order_status order_id new_status note changed_by now db = .ok db4 →
      ∃ row, db4.history = db.history ++ [row]) ∧
    (∀ (adjustment : StockAdjustmentCreate) (adjusted_by : String) (db db2 : DB)
        (adj : StockAdjustment),
      create_stock_adjustment adjustment adjusted_by db = .ok (db2, adj) →
      db2.history = db.history) ∧
    (∀ (order_id : String) (db db2 : DB),
      delete_order order_id db = .ok db2 →
      db2.history = db.history.filter (fun h => !(h.orderId == order_id))) := by
  refine ⟨?_, ?_, ?_, ?_⟩
  · intro od oid onum cb db
    show (od.items.foldl (create_order_item_stock oid onum) _).history ++ _ = _
    rw [foldl_create_order_item_stock_history]
  · intro oid ns note cb now db db4 h
    rcases hfind : db.orders.find? (fun x => x.id == oid) with _ | o <;>
      simp only [update_order_status, hfind] at h
    · exact (Except.noConfusion h)
    · refine ⟨{ orderId := oid, fromStatus := some o.status, toStatus := ns,
                note := note, changedBy := cb }, ?_⟩
      injection h with h
      subst h
      by_cases hA : ns = "CANCELLED" ∧ o.status ≠ "CANCELLED" <;>
        by_cases hB : o.status = "CANCELLED" ∧ ns ≠ "CANCELLED" <;>
        simp [hA, hB, foldl_cancel_restore_history, foldl_uncancel_sale_history]
  · intro adjr ab db db2 adj h
    rcases hv : adjr.variant_id with _ | vid
    · rcases hp : adjr.product_id with _ | pid <;>
        simp only [create_stock_adjustment, hv, hp] at h
      · exact (Except.noConfusion h)
      · rcases hf : findProduct db pid with _ | prod <;> simp only [hf] at h
        · exact (Except.noConfusion h)
        · by_cases hneg : prod.stock + adjr.quantity < 0
          · rw [if_pos hneg] at h
            exact (Except.noConfusion h)
          · rw [if_neg hneg] at h
            injection h with h
            injection h with h1 h2
            subst h1
            rfl
    · simp only [create_stock_adjustment, hv] at h
      rcases hf : findVariant db vid with _ | v <;> simp only [hf] at h
      · exact (Except.noConfusion h)
      · by_cases hneg : v.stock + adjr.quantity < 0
        · rw [if_pos hneg] at h
          exact (Except.noConfusion h)
        · rw [if_neg hneg] at h
          injection h with h
          injection h with h1 h2
          subst h1
          rfl
  · intro oid db db2 h
    rcases hfind : db.orders.find? (fun x => x.id == oid) with _ | o <;>
      simp only [delete_order, hfind] at h
    · exact (Except.noConfusion h)
    · injection h with h
      subst h
      rfl

/-- Witness for `history_append_only_except_delete` at concrete inputs. -/
theorem history_append_only_except_delete_witness :
    ((create_order
        { items := [], shipping_cost := 0, tax_amount := 0, discount_amount := 0,
          notes := none } "o7" "ORD-7" "adm@x"
        { products := [], variants := [], orders := [], orderItems := [],
          adjustments := [], history := [] }).1.history
      = [] ++ [{ orderId := "o7", fromStatus := none, toStatus := "PENDING",
                 note := some "Order created", changedBy := "adm@x" }]) ∧
    (let db : DB :=
      { products := [], variants := [],
        orders := [{ id := "o1", orderNumber := "ORD-1", status := "PENDING",
                     subtotal := 0, shippingCost := 0, taxAmount := 0,
                     discountAmount := 0, total := 0, shippedAt := none,
                     deliveredAt := none, cancelledAt := none }],
        orderItems := [],
        adjustments := [],
        history := [{ orderId := "o1", fromStatus := none, toStatus := "PENDING",
                      note := some "Order created", changedBy := "adm@x" }] }
      ∀ db2, delete_order "o1" db = .ok db2 →
        db2.history = db.history.filter (fun h => !(h.orderId == "o1"))) :=
  ⟨history_append_only_except_delete.1
      { items := [], shipping_cost := 0, tax_amount := 0, discount_amount := 0,
        notes := none } "o7" "ORD-7" "adm@x" _,
    fun db2 h => history_append_only_except_delete.2.2.2 "o1" _ db2 h⟩

/-! ## C3: counter/ledger pairing invariant -/

/-- An adjustment row targeting the product counter `pid` (the product branch
of every stock write sets `variantId = none` and `productId = some pid`). -/
def isProductAdjustmentFor (pid : String) (a : StockAdjustment) : Bool :=
  a.variantId == none && a.productId == some pid

/-- An adjustment row targeting the variant counter `vid`. -/
def isVariantAdjustmentFor (vid : String) (a : StockAdjustment) : Bool :=
  a.variantId == some vid

/-- The most recent ledger row for product `pid` (rows are appended in order). -/
def lastProductAdjustment (db : DB) (pid : String) : Option StockAdjustment :=
  (db.adjustments.filter (isProductAdjustmentFor pid)).getLast?

/-- The most recent ledger row for variant `vid`. -/
def lastVariantAdjustment (db : DB) (vid : String) : Option StockAdjustment :=
  (db.adjustments.filter (isVariantAdjustmentFor vid)).getLast?

/-- Every ledger row satisfies `newStock = previousStock + quantity`. -/
def LedgerArithmetic (db : DB) : Prop :=
  ∀ a ∈ db.adjustments, a.newStock = a.previousStock + a.quantity

/-- Every product and variant counter equals the `newStock` of its most recent
ledger row (when one exists): no row without the paired counter update, and
no counter update without its row. -/
def CounterMatchesLedger (db : DB) : Prop :=
  (∀ p ∈ db.products, ∀ a, lastProductAdjustment db p.id = some a → p.stock = a.newStock) ∧
  (∀ v ∈ db.variants, ∀ a, lastVariantAdjustment db v.id = some a → v.stock = a.newStock)

/-- The combined counter/ledger consistency invariant. -/
def LedgerCounterInv (db : DB) : Prop := LedgerArithmetic db ∧ CounterMatchesLedger db

/-- The invariant only looks at products, variants and adjustments. -/
theorem inv_of_fields (db db' : DB) (hp : db'.products = db.products)
    (hv : db'.variants = db.variants) (ha : db'.adjustments = db.adjustments)
    (h : LedgerCounterInv db) : LedgerCounterInv db' := by
  obtain ⟨h1, h2, h3⟩ := h
  refine ⟨?_, ?_, ?_⟩
  · intro a haa
    rw [LedgerArithmetic] at h1
    rw [ha] at haa
    exact h1 a haa
  · intro p hpp b hl
    rw [hp] at hpp
    apply h2 p hpp b
    unfold lastProductAdjustment at hl ⊢
    rw [ha] at hl
    exact hl
  · intro v hvv b hl
    rw [hv] at hvv
    apply h3 v hvv b
    unfold lastVariantAdjustment at hl ⊢
    rw [ha] at hl
    exact hl

/-- Writing a product-targeted ledger row together with its counter update
preserves the invariant. -/
theorem inv_product_write (db : DB) (pid : String) (a : StockAdjustment)
    (hInv : LedgerCounterInv db)
    (heq : a.newStock = a.previousStock + a.quantity)
    (hvid : a.variantId = none) (hpid : a.productId = some pid) :
    LedgerCounterInv (appendAdjustment (setProductStock db pid a.newStock) a) := by
  obtain ⟨hArith, hProd, hVar⟩ := hInv
  refine ⟨?_, ?_, ?_⟩
  · intro b hb
    simp only [appendAdjustment, setProductStock, List.mem_append,
      List.mem_singleton] at hb
    rcases hb with hb | rfl
    · exact hArith b hb
    · exact heq
  · intro p hp b hlast
    simp only [appendAdjustment, setProductStock, List.mem_map] at hp
    obtain ⟨q, hq, rfl⟩ := hp
    unfold lastProductAdjustment at hlast
    simp only [appendAdjustment, setProductStock, List.filter_append] at hlast
    by_cases hqid : (q.id == pid) = true
    · have hqe : q.id = pid := by simpa using hqid
      rw [if_pos hqid] at hlast ⊢
      have hfa : isProductAdjustmentFor q.id a = true := by
        simp [isProductAdjustmentFor, hvid, hpid, hqe]
      simp only [List.filter_cons, List.filter_nil, hfa, if_pos] at hlast
      rw [List.getLast?_concat] at hlast
      obtain rfl : a = b := by simpa using hlast
      rfl
    · have hqe : q.id ≠ pid := by simpa using hqid
      rw [if_neg hqid] at hlast ⊢
      have hfa : isProductAdjustmentFor q.id a = false := by
        simp [isProductAdjustmentFor, hvid, hpid]
        intro h
        exact absurd h.symm hqe
      simp only [List.filter_cons, List.filter_nil, hfa, Bool.false_eq_true,
        if_false, List.append_nil] at hlast
      exact hProd q hq b hlast
  · intro v hv b hlast
    simp only [appendAdjustment, setProductStock] at hv
    unfold lastVariantAdjustment at hlast
    simp only [appendAdjustment, setProductStock, List.filter_append] at hlast
    have hfa : isVariantAdjustmentFor v.id a = false := by
      simp [isVariantAdjustmentFor, hvid]
    simp only [List.filter_cons, List.filter_nil, hfa, Bool.false_eq_true,
      if_false, List.append_nil] at hlast
    exact hVar v hv b hlast

/-- Writing a variant-targeted ledger row together with its counter update
preserves the invariant (the parent product's counter is untouched). -/
theorem inv_variant_write (db : DB) (vid : String) (a : StockAdjustment)
    (hInv : LedgerCounterInv db)
    (heq : a.newStock = a.previousStock + a.quantity)
    (hvid : a.variantId = some vid) :
    LedgerCounterInv (appendAdjustment (setVariantStock db vid a.newStock) a) := by
  obtain ⟨hArith, hProd, hVar⟩ := hInv
  refine ⟨?_, ?_, ?_⟩
  · intro b hb
    simp only [appendAdjustment, setVariantStock, List.mem_append,
      List.mem_singleton] at hb
    rcases hb with hb | rfl
    · exact hArith b hb
    · exact heq
  · intro p hp b hlast
    simp only [appendAdjustment, setVariantStock] at hp
    unfold lastProductAdjustment at hlast
    simp only [appendAdjustment, setVariantStock, List.filter_append] at hlast
    have hfa : isProductAdjustmentFor p.id a = false := by
      simp [isProductAdjustmentFor, hvid]
    simp only [List.filter_cons, List.filter_nil, hfa, Bool.false_eq_true,
      if_false, List.append_nil] at hlast
    exact hProd p hp b hlast
  · intro v hv b hlast
    simp only [appendAdjustment, setVariantStock, List.mem_map] at hv
    obtain ⟨w, hw, rfl⟩ := hv
    unfold lastVariantAdjustment at hlast
    simp only [appendAdjustment, setVariantStock, List.filter_append] at hlast
    by_cases hwid : (w.id == vid) = true
    · have hwe : w.id = vid := by simpa using hwid
      rw [if_pos hwid] at hlast ⊢
      have hfa : isVariantAdjustmentFor w.id a = true := by
        simp [isVariantAdjustmentFor, hvid, hwe]
      simp only [List.filter_cons, List.filter_nil, hfa, if_pos] at hlast
      rw [List.getLast?_concat] at hlast
      obtain rfl : a = b := by simpa using hlast
      rfl
    · have hwe : w.id ≠ vid := by simpa using hwid
      rw [if_neg hwid] at hlast ⊢
      have hfa : isVariantAdjustmentFor w.id a = false := by
        simp [isVariantAdjustmentFor, hvid]
        intro h
        exact absurd h.symm hwe
      simp only [List.filter_cons, List.filter_nil, hfa, Bool.false_eq_true,
        if_false, List.append_nil] at hlast
      exact hVar w hw b hlast

/-- One step of the order-creation stock loop preserves the invariant. -/
theorem create_order_item_stock_inv (oid onum : String) (db : DB)
    (item : OrderItemCreate) (hInv : LedgerCounterInv db) :
    LedgerCounterInv (create_order_item_stock oid onum db item) := by
  rcases hv : item.variant_id with _ | vid
  · rcases hp : item.product_id with _ | pid
    · simpa [create_order_item_stock, hv, hp] using hInv
    · rcases hf : findProduct db pid with _ | prod
      · simpa [create_order_item_stock, hv, hp, hf] using hInv
      · have step := inv_product_write db pid
          { productId := some pid, variantId := none, productName := some prod.name,
            variantName := none, type := "SALE", quantity := -item.quantity,
            previousStock := prod.stock, newStock := prod.stock - item.quantity,
            orderId := some oid, reason := some ("Order " ++ onum), notes := none,
            adjustedBy := none } hInv (by ring) rfl rfl
        simpa [create_order_item_stock, hv, hp, hf] using step
  · rcases hf : findVariant db vid with _ | v
    · simpa [create_order_item_stock, hv, hf] using hInv
    · have step := inv_variant_write db vid
        { productId := item.product_id, variantId := some vid,
          productName := (findProduct db v.productId).map (fun p => p.name),
          variantName := some v.name, type := "SALE", quantity := -item.quantity,
          previousStock := v.stock, newStock := v.stock - item.quantity,
          orderId := some oid, reason := some ("Order " ++ onum), notes := none,
          adjustedBy := none } hInv (by ring) rfl
      simpa [create_order_item_stock, hv, hf] using step

/-- One step of the cancellation restore loop preserves the invariant. -/
theorem cancel_restore_item_inv (oid onum : String) (db : DB) (item : OrderItem)
    (hInv : LedgerCounterInv db) :
    LedgerCounterInv (cancel_restore_item oid onum db item) := by
  rcases hv : item.variantId with _ | vid
  · rcases hp : item.productId with _ | pid
    · simpa [cancel_restore_item, hv, hp] using hInv
    · rcases hf : findProduct db pid with _ | prod
      · simpa [cancel_restore_item, hv, hp, hf] using hInv
      · have step := inv_product_write db pid
          { productId := some pid, variantId := none, productName := some prod.name,
            variantName := none, type := "RETURN", quantity := item.quantity,
            previousStock := prod.stock, newStock := prod.stock + item.quantity,
            orderId := some oid, reason := some ("Order " ++ onum ++ " cancelled"),
            notes := none, adjustedBy := none } hInv rfl rfl rfl
        simpa [cancel_restore_item, hv, hp, hf] using step
  · rcases hf : findVariant db vid with _ | v
    · simpa [cancel_restore_item, hv, hf] using hInv
    · have step := inv_variant_write db vid
        { productId := item.productId, variantId := some vid,
          productName := (findProduct db v.productId).map (fun p => p.name),
          variantName := some v.name, type := "RETURN", quantity := item.quantity,
          previousStock := v.stock, newStock := v.stock + item.quantity,
          orderId := some oid, reason := some ("Order " ++ onum ++ " cancelled"),
          notes := none, adjustedBy := none } hInv rfl rfl
      simpa [cancel_restore_item, hv, hf] using step

/-- One step of the un-cancel re-decrement loop preserves the invariant. -/
theorem uncancel_sale_item_inv (oid onum : String) (db : DB) (item : OrderItem)
    (hInv : LedgerCounterInv db) :
    LedgerCounterInv (uncancel_sale_item oid onum db item) := by
  rcases hv : item.variantId with _ | vid
  · rcases hp : item.productId with _ | pid
    · simpa [uncancel_sale_item, hv, hp] using hInv
    · rcases hf : findProduct db pid with _ | prod
      · simpa [uncancel_sale_item, hv, hp, hf] using hInv
      · have step := inv_product_write db pid
          { productId := some pid, variantId := none, productName := some prod.name,
            variantName := none, type := "SALE", quantity := -item.quantity,
            previousStock := prod.stock, newStock := prod.stock - item.quantity,
            orderId := some oid, reason := some ("Order " ++ onum ++ " restored"),
            notes := none, adjustedBy := none } hInv (by ring) rfl rfl
        simpa [uncancel_sale_item, hv, hp, hf] using step
  · rcases hf : findVariant db vid with _ | v
    · simpa [uncancel_sale_item, hv, hf] using hInv
    · have step := inv_variant_write db vid
        { productId := item.productId, variantId := some vid,
          productName := (findProduct db v.productId).map (fun p => p.name),
          variantName := some v.name, type := "SALE", quantity := -item.quantity,
          previousStock := v.stock, newStock := v.stock - item.quantity,
          orderId := some oid, reason := some ("Order " ++ onum ++ " restored"),
          notes := none, adjustedBy := none } hInv (by ring) rfl
      simpa [uncancel_sale_item, hv, hf] using step

/-- A fold whose step preserves the invariant preserves it overall. -/
theorem foldl_inv {α : Type} (f : DB → α → DB)
    (hf : ∀ db x, LedgerCounterInv db → LedgerCounterInv (f db x)) :
    ∀ (l : List α) (db : DB), LedgerCounterInv db → LedgerCounterInv (l.foldl f db) := by
  intro l
  induction l with
  | nil => intro db h; exact h
  | cons a t ih => intro db h; rw [List.foldl_cons]; exact ih _ (hf db a h)

/-- Changing only the orders, order-items and history tables preserves the
counter/ledger invariant. -/
theorem inv_mk (db : DB) (os : List Order) (its : List OrderItem)
    (hs : List OrderStatusHistory) (h : LedgerCounterInv db) :
    LedgerCounterInv
      { products := db.products, variants := db.variants, orders := os,
        orderItems := its, adjustments := db.adjustments, history := hs } :=
  inv_of_fields db _ rfl rfl rfl h

/-- C3: every stock-writing operation of the claim — the single stock
adjustment, order creation, and the cancellation/un-cancellation loops of the
status update — preserves the counter/ledger invariant `LedgerCounterInv`
(every row satisfies `newStock = previousStock + quantity` and every counter
equals the `newStock` of its most recent row, so no row is written without
the paired counter update and vice versa); moreover the single adjustment
appends exactly one row whose `previousStock` is the counter value it read. -/
theorem ledger_counter_invariant_preserved :
    (∀ (adjustment : StockAdjustmentCreate) (adjusted_by : String) (db db2 : DB)
        (adj : StockAdjustment),
      create_stock_adjustment adjustment adjusted_by db = .ok (db2, adj) →
      LedgerCounterInv db →
      LedgerCounterInv db2 ∧ adj.newStock = adj.previousStock + adj.quantity ∧
        targetStock db adjustment = some adj.previousStock ∧
        db2.adjustments = db.adjustments ++ [adj]) ∧
    (∀ (order_data : OrderCreate) (order_id order_number changed_by : String) (db : DB),
      LedgerCounterInv db →
      LedgerCounterInv (create_order order_data order_id order_number changed_by db).1) ∧
    (∀ (order_id new_status : String) (note : Option String) (changed_by : String)
        (now : Nat) (db db4 : DB),
      update_order_status order_id new_status note changed_by now db = .ok db4 →
      LedgerCounterInv db → LedgerCounterInv db4) := by
  refine ⟨?_, ?_, ?_⟩
  · intro adjr ab db db2 adj h hInv
    rcases hv : adjr.variant_id with _ | vid
    · rcases hp : adjr.product_id with _ | pid <;>
        simp only [create_stock_adjustment, hv, hp] at h
      · exact (Except.noConfusion h)
      · rcases hf : findProduct db pid with _ | prod <;> simp only [hf] at h
        · exact (Except.noConfusion h)
        · by_cases hneg : prod.stock + adjr.quantity < 0
          · rw [if_pos hneg] at h
            exact (Except.noConfusion h)
          · rw [if_neg hneg] at h
            injection h with h
            injection h with h1 h2
            subst h1
            subst h2
            refine ⟨?_, rfl, ?_, rfl⟩
            · exact inv_product_write db pid _ hInv rfl rfl rfl
            · simp [targetStock, hv, hp, hf]
    · simp only [create_stock_adjustment, hv] at h
      rcases hf : findVariant db vid with _ | v <;> simp only [hf] at h
      · exact (Except.noConfusion h)
      · by_cases hneg : v.stock + adjr.quantity < 0
        · rw [if_pos hneg] at h
          exact (Except.noConfusion h)
        · rw [if_neg hneg] at h
          injection h with h
          injection h with h1 h2
          subst h1
          subst h2
          refine ⟨?_, rfl, ?_, rfl⟩
          · exact inv_variant_write db vid _ hInv rfl rfl
          · simp [targetStock, hv, hf]
  · intro od oid onum cb db hInv
    simp only [create_order]
    exact inv_mk _ _ _ _ (foldl_inv _ (create_order_item_stock_inv oid onum) _ _
      (inv_mk db _ _ _ hInv))
  · intro oid ns note cb now db db4 h hInv
    rcases hfind : db.orders.find? (fun x => x.id == oid) with _ | o <;>
      simp only [update_order_status, hfind] at h
    · exact (Except.noConfusion h)
    · injection h with h
      subst h
      split <;> split <;>
        first
        | exact foldl_inv _ (uncancel_sale_item_inv oid o.orderNumber) _ _
            (foldl_inv _ (cancel_restore_item_inv oid o.orderNumber) _ _
              (inv_mk db _ _ _ hInv))
        | exact foldl_inv _ (uncancel_sale_item_inv oid o.orderNumber) _ _
            (inv_mk db _ _ _ hInv)
        | exact foldl_inv _ (cancel_restore_item_inv oid o.orderNumber) _ _
            (inv_mk db _ _ _ hInv)
        | exact inv_mk db _ _ _ hInv

/-- Witness for `ledger_counter_invariant_preserved`: the invariant holds for a
one-product state with an empty ledger and is preserved across a concrete
order creation. -/
theorem ledger_counter_invariant_preserved_witness :
    LedgerCounterInv
      { products := [{ id := "p1", name := "P", stock := 5 }], variants := [],
        orders := [], orderItems := [], adjustments := [], history := [] } ∧
    LedgerCounterInv (create_order
      { items := [{ product_id := some "p1", variant_id := none, product_name := "P",
                    unit_price := 2, quantity := 3 }],
        shipping_cost := 0, tax_amount := 0, discount_amount := 0, notes := none }
      "o1" "ORD-1" "a@x"
      { products := [{ id := "p1", name := "P", stock := 5 }], variants := [],
        orders := [], orderItems := [], adjustments := [], history := [] }).1 := by
  have hInv : LedgerCounterInv
      { products := [{ id := "p1", name := "P", stock := 5 }], variants := [],
        orders := [], orderItems := [], adjustments := [], history := [] } := by
    refine ⟨?_, ?_, ?_⟩
    · intro a ha
      simp at ha
    · intro p hp b hl
      simp [lastProductAdjustment] at hl
    · intro v hv b hl
      simp at hv
  exact ⟨hInv, ledger_counter_invariant_preserved.2.1 _ "o1" "ORD-1" "a@x" _ hInv⟩

/-! ## C8: permission-write endpoints (`routers/auth.py`) -/

/-- Python `str.upper()` of the submitted role names, modelled
character-wise (the built-in `String.toUpper` is not kernel-reducible). -/
def str_upper (s : String) : String :=
  String.mk (s.data.map Char.toUpper)

/-- Python truthiness of an optional string (`None` and `""` are falsy). -/
def py_truthy_str (s : Option String) : Bool :=
  match s with
  | none => false
  | some s => !(s == "")

/-- Python truthiness of an optional permissions dictionary (`None` and the
empty dictionary are falsy). -/
def py_truthy_perm (pm : Option PermMap) : Bool :=
  match pm with
  | none => false
  | some m => !m.isEmpty

/-- The valid permission level strings checked by both write endpoints. -/
def VALID_PERMISSION_LEVELS : List String := ["none", "view", "edit"]

/-- The permission-validation loop shared by `update_user_approval` (lines
781-799) and `create_user_by_admin` (lines 902-919): reject an unknown module
key, an unknown level string, or `users`/`edit`; the first offending entry
raises. -/
def validate_permissions : PermMap → Except ApiError Unit
  | [] => .ok ()
  | (module, level) :: rest =>
    if ¬ module ∈ PERMISSION_MODULES then .error (.invalidPermissionModule module)
    else if ¬ level ∈ VALID_PERMISSION_LEVELS then
      .error (.invalidPermissionLevel module level)
    else if module = "users" ∧ level = "edit" then .error .staffUsersEditForbidden
    else validate_permissions rest

/-- The request body `UserUpdateRequest` of `models/auth_models.py`. -/
structure UserUpdateRequest where
  is_approved : Option Bool
  role : Option String
  permissions : Option PermMap
  deriving DecidableEq, Repr

/-- The request body `UserCreateByAdmin` of `models/auth_models.py`
(the password, forwarded only to the identity provider, is omitted). -/
structure UserCreateByAdmin where
  email : String
  full_name : Option String
  role : String
  is_approved : Bool
  permissions : Option PermMap
  deriving DecidableEq, Repr

/-- The `update_dict` of `update_user_approval`: which of the three
authorization-relevant columns the update writes (`permissions = some none`
models setting the column to NULL). -/
structure UserUpdateDict where
  isApproved : Option Bool
  role : Option Role
  permissions : Option (Option PermMap)
  deriving DecidableEq, Repr

/-- Python `if not update_dict:`. -/
def UserUpdateDict.isEmptyDict (d : UserUpdateDict) : Bool :=
  match d.isApproved, d.role, d.permissions with
  | none, none, none => true
  | _, _, _ => false

/-- `prisma.user.update(where=..., data=update_dict)` applied to one row. -/
def applyUpdate (u : User) (d : UserUpdateDict) : User :=
  { u with
    isApproved := d.isApproved.getD u.isApproved,
    role := d.role.getD u.role,
    permissions := match d.permissions with
      | none => u.permissions
      | some pm => pm }

/-- The `is_approved` block of `update_user_approval` (lines 738-745): an
already-approved user cannot be declined. -/
def build_approval_dict (user : User) (update_data : UserUpdateRequest)
    (d : UserUpdateDict) : Except ApiError UserUpdateDict :=
  match update_data.is_approved with
  | none => .ok d
  | some b =>
    if user.isApproved = true ∧ b = false then .error .cannotDeclineApproved
    else .ok { d with isApproved := some b }

/-- The `role` block of `update_user_approval` (lines 747-767): validate the
role name; switching to STAFF installs the default matrix when neither the
request nor the stored row carries a (truthy) permissions map; switching to
CUSTOMER clears the permissions column. -/
def build_role_dict (user : User) (update_data : UserUpdateRequest)
    (d : UserUpdateDict) : Except ApiError UserUpdateDict :=
  if py_truthy_str update_data.role then
    let role_upper := str_upper (update_data.role.getD "")
    if ¬ role_upper ∈ ["ADMIN", "STAFF", "CUSTOMER"] then .error (.invalidRole role_upper)
    else if role_upper = "ADMIN" then .ok { d with role := some .ADMIN }
    else if role_upper = "STAFF" then
      if py_truthy_perm update_data.permissions = false ∧
          py_truthy_perm user.permissions = false then
        .ok { d with role := some .STAFF,
                     permissions := some (some DEFAULT_STAFF_PERMISSIONS) }
      else .ok { d with role := some .STAFF }
    else .ok { d with role := some .CUSTOMER, permissions := some none }
  else .ok d

/-- The `permissions` block of `update_user_approval` (lines 770-801): only a
(truthy) submitted map is validated; the target role must be STAFF. -/
def build_permissions_dict (user : User) (update_data : UserUpdateRequest)
    (d : UserUpdateDict) : Except ApiError UserUpdateDict :=
  if py_truthy_perm update_data.permissions then
    let pm := update_data.permissions.getD []
    let target_role :=
      if py_truthy_str update_data.role then str_upper (update_data.role.getD "")
      else get_role_string user.role
    if ¬ target_role = "STAFF" then .error .permissionsOnlyForStaff
    else
      match validate_permissions pm with
      | .error e => .error e
      | .ok _ => .ok { d with permissions := some (some pm) }
  else .ok d

/-- `update_user_approval` of `routers/auth.py` (lines 709-847) acting on the
user table; `current_admin_id` is the acting admin's id. -/
def update_user_approval (user_id : String) (update_data : UserUpdateRequest)
    (current_admin_id : String) (users : List User) : Except ApiError (List User) :=
  match users.find? (fun u => u.id == user_id) with
  | none => .error .userNotFound
  | some user =>
    if user_id = current_admin_id then .error .cannotChangeSelf
    else
      match build_approval_dict user update_data
          { isApproved := none, role := none, permissions := none } with
      | .error e => .error e
      | .ok d1 =>
        match build_role_dict user update_data d1 with
        | .error e => .error e
        | .ok d2 =>
          match build_permissions_dict user update_data d2 with
          | .error e => .error e
          | .ok d3 =>
            if d3.isEmptyDict then .error .noUpdateData
            else .ok (users.map (fun u =>
              if u.id == user_id then applyUpdate u d3 else u))

/-- The role mapping of `create_user_by_admin` (lines 890-896). -/
def parse_admin_role (role_upper : String) : Role :=
  if role_upper = "ADMIN" then .ADMIN
  else if role_upper = "STAFF" then .STAFF
  else .CUSTOMER

/-- The STAFF-permission resolution of `create_user_by_admin` (lines 898-922):
STAFF gets its submitted (validated) map or the default matrix; every other
role gets no permissions, with the submitted map silently ignored. -/
def staff_permissions_for (user_data : UserCreateByAdmin) (role_upper : String) :
    Except ApiError (Option PermMap) :=
  if role_upper = "STAFF" then
    if py_truthy_perm user_data.permissions then
      match validate_permissions (user_data.permissions.getD []) with
      | .error e => .error e
      | .ok _ => .ok user_data.permissions
    else .ok (some DEFAULT_STAFF_PERMISSIONS)
  else .ok none

/-- `create_user_by_admin` of `routers/auth.py` (lines 850-956) acting on the
user table; `new_id` stands for the identity-provider id of the created user.
The stored permissions column follows `Json(permissions) if permissions else
None`. -/
def create_user_by_admin (user_data : UserCreateByAdmin) (new_id : String)
    (users : List User) : Except ApiError (List User × User) :=
  let role_upper := str_upper user_data.role
  if ¬ role_upper ∈ ["ADMIN", "STAFF", "CUSTOMER"] then .error (.invalidRole role_upper)
  else
    let db_role : Role := parse_admin_role role_upper
    match staff_permissions_for user_data role_upper with
    | .error e => .error e
    | .ok permissions =>
      let created : User :=
        { id := new_id, email := user_data.email, role := db_role,
          isApproved := user_data.is_approved, emailVerified := false,
          permissions := if py_truthy_perm permissions then permissions else none }
      .ok (users ++ [created], created)

/-- One write to the user table, covering every site in the source that
creates, updates or deletes a user row: the two admin endpoints, user
deletion, the two signup flows (which create a CUSTOMER with no permissions
map, or later touch only profile/verification fields), and the
`set_admin.py` script. -/
inductive UserStoreStep : List User → List User → Prop where
  /-- `create_user_by_admin` succeeds. -/
  | adminCreate (user_data : UserCreateByAdmin) (new_id : String)
      (users out : List User) (u : User) :
      create_user_by_admin user_data new_id users = .ok (out, u) →
      UserStoreStep users out
  /-- `update_user_approval` succeeds. -/
  | adminUpdate (user_id : String) (update_data : UserUpdateRequest)
      (current_admin_id : String) (users out : List User) :
      update_user_approval user_id update_data current_admin_id users = .ok out →
      UserStoreStep users out
  /-- `delete_user` (lines 959-1017) removes the row. -/
  | adminDelete (user_id : String) (users : List User) :
      UserStoreStep users (users.filter (fun u => !(u.id == user_id)))
  /-- The signup flows (lines 283-454, 1047-1183) create a CUSTOMER row with
  no permissions map. -/
  | signupCreate (id email : String) (approved verified : Bool) (users : List User) :
      UserStoreStep users (users ++
        [{ id := id, email := email, role := .CUSTOMER, isApproved := approved,
           emailVerified := verified, permissions := none }])
  /-- `scripts/set_admin.py` creates an ADMIN row with no permissions map. -/
  | setAdminCreate (id email : String) (approved verified : Bool) (users : List User) :
      UserStoreStep users (users ++
        [{ id := id, email := email, role := .ADMIN, isApproved := approved,
           emailVerified := verified, permissions := none }])
  /-- `scripts/set_admin.py` flips an existing row's role to ADMIN. -/
  | setAdminUpdate (email : String) (users : List User) :
      UserStoreStep users (users.map (fun u =>
        if u.email == email then { u with role := .ADMIN } else u))
  /-- Profile and verification updates (signup retry paths, `verify_otp`)
  touch only fields other than role and permissions. -/
  | profileUpdate (id : String) (f : User → User) (users : List User) :
      (∀ u, (f u).role = u.role) → (∀ u, (f u).permissions = u.permissions) →
      UserStoreStep users (users.map (fun u => if u.id == id then f u else u))

/-- No stored user's permissions map grants `users: edit` (for STAFF rows this
is exactly the forbidden combination of the claim; the stronger all-role form
is what the write paths actually maintain). -/
def NoUsersEdit (users : List User) : Prop :=
  ∀ u ∈ users, ∀ pm, u.permissions = some pm → dictGet pm "users" "none" ≠ "edit"

/-- Dictionary lookup hits a matching head entry. -/
theorem dictGet_cons_hit (m l k d : String) (rest : PermMap) (h : (m == k) = true) :
    dictGet ((m, l) :: rest) k d = l := by
  unfold dictGet
  rw [@List.find?_cons_of_pos (String × String) (fun p => p.1 == k) (m, l) rest h]

/-- Dictionary lookup skips a non-matching head entry. -/
theorem dictGet_cons_miss (m l k d : String) (rest : PermMap)
    (h : ¬ (m == k) = true) :
    dictGet ((m, l) :: rest) k d = dictGet rest k d := by
  unfold dictGet
  rw [@List.find?_cons_of_neg (String × String) (fun p => p.1 == k) (m, l) rest h]

/-- A non-default lookup result is an entry of the dictionary. -/
theorem dictGet_mem : ∀ (pm : PermMap) (k d v : String),
    dictGet pm k d = v → ¬ v = d → (k, v) ∈ pm
  | [], k, d, v, h, hne => by
    unfold dictGet at h
    simp at h
    exact absurd h.symm hne
  | (m0, l0) :: rest, k, d, v, h, hne => by
    by_cases hk : (m0 == k) = true
    · rw [dictGet_cons_hit _ _ _ _ _ hk] at h
      have hm : m0 = k := by simpa using hk
      subst hm
      subst h
      exact List.mem_cons_self _ _
    · rw [dictGet_cons_miss _ _ _ _ _ hk] at h
      exact List.mem_cons_of_mem _ (dictGet_mem rest k d v h hne)

/-- A validated map only contains known modules at known levels and never
the `users`/`edit` combination. -/
theorem validate_permissions_sound : ∀ (pm : PermMap) (m l : String),
    validate_permissions pm = .ok () → (m, l) ∈ pm →
    m ∈ PERMISSION_MODULES ∧ l ∈ VALID_PERMISSION_LEVELS ∧
      ¬ (m = "users" ∧ l = "edit") := by
  intro pm
  induction pm with
  | nil =>
    intro m l _ hmem
    exact absurd hmem (List.not_mem_nil _)
  | cons hd tl ih =>
    obtain ⟨m0, l0⟩ := hd
    intro m l h hmem
    simp only [validate_permissions] at h
    split at h
    · exact (Except.noConfusion h)
    · split at h
      · exact (Except.noConfusion h)
      · split at h
        · exact (Except.noConfusion h)
        · rename_i h1 h2 h3
          rcases List.mem_cons.mp hmem with heq | hmem2
          · obtain ⟨rfl, rfl⟩ := Prod.mk.injEq .. |>.mp heq
            exact ⟨not_not.mp h1, not_not.mp h2, h3⟩
          · exact ih m l h hmem2

/-- A map containing an unknown module, an unknown level, or `users`/`edit`
fails validation. -/
theorem validate_permissions_rejects (pm : PermMap) (m l : String)
    (hmem : (m, l) ∈ pm)
    (hbad : ¬ m ∈ PERMISSION_MODULES ∨ ¬ l ∈ VALID_PERMISSION_LEVELS ∨
      (m = "users" ∧ l = "edit")) :
    ∃ e, validate_permissions pm = .error e := by
  cases hres : validate_permissions pm with
  | error e => exact ⟨e, rfl⟩
  | ok u =>
    cases u
    have hs := validate_permissions_sound pm m l hres hmem
    rcases hbad with hb | hb | hb
    · exact absurd hs.1 hb
    · exact absurd hs.2.1 hb
    · exact absurd hb hs.2.2

/-- A validated map never maps `users` to `edit`. -/
theorem validate_permissions_users_clean (pm : PermMap)
    (h : validate_permissions pm = .ok ()) :
    dictGet pm "users" "none" ≠ "edit" := by
  intro hedit
  have hmem : ("users", "edit") ∈ pm :=
    dictGet_mem pm "users" "none" "edit" hedit (by decide)
  exact (validate_permissions_sound pm "users" "edit" h hmem).2.2 ⟨rfl, rfl⟩

/-- What a permissions column written by an update may contain. -/
def CleanPermField : Option (Option PermMap) → Prop
  | none => True
  | some none => True
  | some (some pm) => dictGet pm "users" "none" ≠ "edit"

/-- The approval block never writes the permissions column. -/
theorem build_approval_dict_perm (user : User) (ud : UserUpdateRequest)
    (d d' : UserUpdateDict) (h : build_approval_dict user ud d = .ok d') :
    d'.permissions = d.permissions := by
  unfold build_approval_dict at h
  split at h
  · injection h with h
    subst h
    rfl
  · split at h
    · exact (Except.noConfusion h)
    · injection h with h
      subst h
      rfl

/-- The role block writes the permissions column only with the default matrix
or NULL. -/
theorem build_role_dict_perm (user : User) (ud : UserUpdateRequest)
    (d d' : UserUpdateDict) (h : build_role_dict user ud d = .ok d') :
    d'.permissions = d.permissions ∨
    d'.permissions = some (some DEFAULT_STAFF_PERMISSIONS) ∨
    d'.permissions = some none := by
  simp only [build_role_dict] at h
  split at h
  · split at h
    · exact (Except.noConfusion h)
    · split at h
      · injection h with h
        subst h
        exact Or.inl rfl
      · split at h
        · split at h
          · injection h with h
            subst h
            exact Or.inr (Or.inl rfl)
          · injection h with h
            subst h
            exact Or.inl rfl
        · injection h with h
          subst h
          exact Or.inr (Or.inr rfl)
  · injection h with h
    subst h
    exact Or.inl rfl

/-- The permissions block writes the permissions column only with a map that
passed validation. -/
theorem build_permissions_dict_perm (user : User) (ud : UserUpdateRequest)
    (d d' : UserUpdateDict) (h : build_permissions_dict user ud d = .ok d') :
    d'.permissions = d.permissions ∨
    ∃ pm, d'.permissions = some (some pm) ∧ validate_permissions pm = .ok () := by
  simp only [build_permissions_dict] at h
  repeat' split at h
  all_goals
    first
    | exact (Except.noConfusion h)
    | (injection h with h; subst h; exact Or.inl rfl)
    | (rename_i u heq; cases u; injection h with h; subst h;
       exact Or.inr ⟨_, rfl, heq⟩)

/-- A successful permissions block on a (truthy) submitted map implies the map
passed validation. -/
theorem build_permissions_dict_ok_validate (user : User) (ud : UserUpdateRequest)
    (d d' : UserUpdateDict) (pm : PermMap) (hpm : ud.permissions = some pm)
    (hne : ¬ pm = []) (h : build_permissions_dict user ud d = .ok d') :
    validate_permissions pm = .ok () := by
  have htr : py_truthy_perm ud.permissions = true := by
    rw [hpm]
    cases pm with
    | nil => exact absurd rfl hne
    | cons a t => rfl
  simp only [build_permissions_dict] at h
  rw [if_pos htr] at h
  repeat' split at h
  all_goals
    first
    | exact (Except.noConfusion h)
    | (rename_i u heq; cases u; rw [hpm] at heq; exact heq)

/-- The permissions stored by admin user creation never map `users` to `edit`. -/
theorem staff_permissions_for_clean (user_data : UserCreateByAdmin)
    (role_upper : String) (perms : Option PermMap)
    (h : staff_permissions_for user_data role_upper = .ok perms) :
    ∀ pm, perms = some pm → dictGet pm "users" "none" ≠ "edit" := by
  unfold staff_permissions_for at h
  split at h
  · split at h
    · split at h
      · exact (Except.noConfusion h)
      · rename_i u heq
        cases u
        injection h with h
        subst h
        intro pm hpm
        rw [hpm] at heq
        exact validate_permissions_users_clean pm heq
    · injection h with h
      subst h
      intro pm hpm
      obtain rfl : DEFAULT_STAFF_PERMISSIONS = pm := by simpa using hpm
      decide
  · injection h with h
    subst h
    intro pm hpm
    exact absurd hpm (by simp)

/-- An updated row keeps the no-`users: edit` property when the written
permissions column is clean. -/
theorem applyUpdate_clean (u : User) (d : UserUpdateDict)
    (hu : ∀ pm, u.permissions = some pm → dictGet pm "users" "none" ≠ "edit")
    (hd : CleanPermField d.permissions) :
    ∀ pm, (applyUpdate u d).permissions = some pm →
      dictGet pm "users" "none" ≠ "edit" := by
  intro pm hpm
  have hproj : (applyUpdate u d).permissions
      = match d.permissions with
        | none => u.permissions
        | some pmx => pmx := rfl
  rw [hproj] at hpm
  rcases hdp : d.permissions with _ | op
  · rw [hdp] at hpm
    exact hu pm hpm
  · rw [hdp] at hd
    simp only [hdp] at hpm
    rcases op with _ | pm0
    · exact absurd hpm (by simp)
    · obtain rfl : pm0 = pm := by simpa using hpm
      exact hd

/-- Every write to the user table preserves the absence of `users: edit`
grants. -/
theorem user_store_step_clean (s s2 : List User)
    (hstep : UserStoreStep s s2) : NoUsersEdit s → NoUsersEdit s2 := by
  induction hstep with
  | adminCreate user_data new_id users out u h =>
    intro hInv
    simp only [create_user_by_admin] at h
    split at h
    · exact (Except.noConfusion h)
    · split at h
      · exact (Except.noConfusion h)
      · rename_i perms heq
        injection h with h
        injection h with h1 h2
        subst h1
        intro w hw pm hpm
        rcases List.mem_append.mp hw with hw | hw
        · exact hInv w hw pm hpm
        · have hw' := List.mem_singleton.mp hw
          subst hw'
          change (if py_truthy_perm perms = true then perms else none) = some pm at hpm
          by_cases htr : py_truthy_perm perms = true
          · rw [if_pos htr] at hpm
            exact staff_permissions_for_clean user_data _ perms heq pm hpm
          · rw [if_neg htr] at hpm
            exact absurd hpm (by simp)
  | adminUpdate user_id ud admin_id users out h =>
    intro hInv
    simp only [update_user_approval] at h
    split at h
    · exact (Except.noConfusion h)
    · rename_i user hfind
      split at h
      · exact (Except.noConfusion h)
      · split at h
        · exact (Except.noConfusion h)
        · rename_i d1 h1
          split at h
          · exact (Except.noConfusion h)
          · rename_i d2 h2
            split at h
            · exact (Except.noConfusion h)
            · rename_i d3 h3
              split at h
              · exact (Except.noConfusion h)
              · injection h with h
                subst h
                intro w hw pm hpm
                rcases List.mem_map.mp hw with ⟨u0, hu0, rfl⟩
                have hc1 : CleanPermField d1.permissions := by
                  rw [build_approval_dict_perm _ _ _ _ h1]
                  trivial
                have hc2 : CleanPermField d2.permissions := by
                  rcases build_role_dict_perm _ _ _ _ h2 with he | he | he <;> rw [he]
                  · exact hc1
                  · show dictGet DEFAULT_STAFF_PERMISSIONS "users" "none" ≠ "edit"
                    decide
                  · trivial
                have hc3 : CleanPermField d3.permissions := by
                  rcases build_permissions_dict_perm _ _ _ _ h3 with he | ⟨pmv, he, hval⟩ <;>
                    rw [he]
                  · exact hc2
                  · show dictGet pmv "users" "none" ≠ "edit"
                    exact validate_permissions_users_clean pmv hval
                by_cases hid : (u0.id == user_id) = true
                · rw [if_pos hid] at hpm
                  exact applyUpdate_clean u0 d3 (hInv u0 hu0) hc3 pm hpm
                · rw [if_neg hid] at hpm
                  exact hInv u0 hu0 pm hpm
  | adminDelete user_id users =>
    intro hInv w hw pm hpm
    exact hInv w (List.mem_of_mem_filter hw) pm hpm
  | signupCreate id email approved verified users =>
    intro hInv w hw pm hpm
    rcases List.mem_append.mp hw with hw | hw
    · exact hInv w hw pm hpm
    · have hw' := List.mem_singleton.mp hw
      subst hw'
      exact absurd hpm (by simp)
  | setAdminCreate id email approved verified users =>
    intro hInv w hw pm hpm
    rcases List.mem_append.mp hw with hw | hw
    · exact hInv w hw pm hpm
    · have hw' := List.mem_singleton.mp hw
      subst hw'
      exact absurd hpm (by simp)
  | setAdminUpdate email users =>
    intro hInv w hw pm hpm
    rcases List.mem_map.mp hw with ⟨u0, hu0, rfl⟩
    by_cases he : (u0.email == email) = true
    · rw [if_pos he] at hpm
      exact hInv u0 hu0 pm hpm
    · rw [if_neg he] at hpm
      exact hInv u0 hu0 pm hpm
  | profileUpdate id f users hrole hperm =>
    intro hInv w hw pm hpm
    rcases List.mem_map.mp hw with ⟨u0, hu0, rfl⟩
    by_cases he : (u0.id == id) = true
    · rw [if_pos he, hperm u0] at hpm
      exact hInv u0 hu0 pm hpm
    · rw [if_neg he] at hpm
      exact hInv u0 hu0 pm hpm

/-- C8 counterexample: `create_user_by_admin` with role CUSTOMER and a
submitted permissions mapping whose module key "bogus" is outside the fixed
module set does NOT reject with a validation error: the request succeeds and
the mapping is silently ignored (permissions stored as NULL), contradicting
the claim that every permission-write endpoint rejects such a mapping. -/
theorem create_user_skips_validation_counterexample :
    ¬ "bogus" ∈ PERMISSION_MODULES ∧
    create_user_by_admin
      { email := "c@y", full_name := none, role := "CUSTOMER", is_approved := true,
        permissions := some [("bogus", "edit")] } "u1" []
      = .ok ([{ id := "u1", email := "c@y", role := .CUSTOMER, isApproved := true,
                emailVerified := false, permissions := none }],
             { id := "u1", email := "c@y", role := .CUSTOMER, isApproved := true,
               emailVerified := false, permissions := none }) := by
  exact ⟨by decide, rfl⟩

/-- C8 (amended): the permission-validation loop rejects any mapping entry
with a module outside the fixed set, a level outside none/view/edit, or the
`users`/`edit` combination; both write endpoints reject such a submitted
(non-empty) mapping whenever the targeted account is STAFF (`create_user_by_admin`
does not validate — it silently drops the mapping — when the created role is
not STAFF); and every write to the user table preserves the property that no
stored account, in particular no STAFF account, has `permissions["users"] =
"edit"`. -/
theorem permission_write_validation :
    (∀ (pm : PermMap) (m l : String), (m, l) ∈ pm →
      (¬ m ∈ PERMISSION_MODULES ∨ ¬ l ∈ VALID_PERMISSION_LEVELS ∨
        (m = "users" ∧ l = "edit")) →
      ∃ e, validate_permissions pm = .error e) ∧
    (∀ (user_data : UserCreateByAdmin) (new_id : String) (users : List User)
        (m l : String) (pm : PermMap),
      str_upper user_data.role = "STAFF" → user_data.permissions = some pm →
      ¬ pm = [] → (m, l) ∈ pm →
      (¬ m ∈ PERMISSION_MODULES ∨ ¬ l ∈ VALID_PERMISSION_LEVELS ∨
        (m = "users" ∧ l = "edit")) →
      ∃ e, create_user_by_admin user_data new_id users = .error e) ∧
    (∀ (user_id : String) (update_data : UserUpdateRequest) (admin_id : String)
        (users : List User) (m l : String) (pm : PermMap),
      update_data.permissions = some pm → ¬ pm = [] → (m, l) ∈ pm →
      (¬ m ∈ PERMISSION_MODULES ∨ ¬ l ∈ VALID_PERMISSION_LEVELS ∨
        (m = "users" ∧ l = "edit")) →
      ∃ e, update_user_approval user_id update_data admin_id users = .error e) ∧
    (∀ (s s2 : List User), UserStoreStep s s2 → NoUsersEdit s → NoUsersEdit s2) := by
  refine ⟨?_, ?_, ?_, ?_⟩
  · intro pm m l hmem hbad
    exact validate_permissions_rejects pm m l hmem hbad
  · intro user_data new_id users m l pm hrole hpm hne hmem hbad
    obtain ⟨e, he⟩ := validate_permissions_rejects pm m l hmem hbad
    have htr : py_truthy_perm user_data.permissions = true := by
      rw [hpm]
      cases pm with
      | nil => exact absurd rfl hne
      | cons a t => rfl
    have hmem2 : "STAFF" ∈ ["ADMIN", "STAFF", "CUSTOMER"] := by decide
    have hsp : staff_permissions_for user_data "STAFF" = .error e := by
      unfold staff_permissions_for
      rw [if_pos rfl, if_pos htr, hpm]
      simp only [Option.getD_some, he]
    refine ⟨e, ?_⟩
    simp only [create_user_by_admin, hrole]
    rw [if_neg (not_not_intro hmem2), hsp]
  · intro user_id ud admin_id users m l pm hpm hne hmem hbad
    cases hres : update_user_approval user_id ud admin_id users with
    | error e => exact ⟨e, rfl⟩
    | ok out =>
      exfalso
      obtain ⟨e, he⟩ := validate_permissions_rejects pm m l hmem hbad
      simp only [update_user_approval] at hres
      split at hres
      · exact (Except.noConfusion hres)
      · split at hres
        · exact (Except.noConfusion hres)
        · split at hres
          · exact (Except.noConfusion hres)
          · split at hres
            · exact (Except.noConfusion hres)
            · split at hres
              · exact (Except.noConfusion hres)
              · rename_i d3 h3
                have hval := build_permissions_dict_ok_validate _ _ _ _ pm hpm hne h3
                rw [hval] at he
                exact (Except.noConfusion he)
  · intro s s2 hstep hInv
    exact user_store_step_clean s s2 hstep hInv

/-- Witness for `permission_write_validation`: a STAFF creation submitting
`users: edit` is rejected, and a concrete store step preserves the invariant. -/
theorem permission_write_validation_witness :
    (∃ e, create_user_by_admin
      { email := "s@y", full_name := none, role := "STAFF", is_approved := true,
        permissions := some [("users", "edit")] } "u2" [] = .error e) ∧
    (∃ e, update_user_approval "u3"
      { is_approved := none, role := none, permissions := some [("users", "edit")] }
      "a1" [] = .error e) := by
  constructor
  · exact permission_write_validation.2.1 _ "u2" [] "users" "edit"
      [("users", "edit")] rfl rfl (by decide) (by decide)
      (Or.inr (Or.inr ⟨rfl, rfl⟩))
  · exact permission_write_validation.2.2.1 "u3" _ "a1" [] "users" "edit"
      [("users", "edit")] rfl (by decide) (by decide)
      (Or.inr (Or.inr ⟨rfl, rfl⟩))

end ECom
